import Mathlib

/-!
Verification of the trading-agent repository's core decision logic.

We shallowly embed the Python sources:
  * `analysis/signals.py` (`entry_exit_on_m15`),
  * `analysis/indicators.py` (`add_indicators`, `_pick_column`, `_normalize_adx`),
  * `analysis/data_loader.py` (`resample_ohlc`),
  * `agent.py` (`regime_signal`),
and, for the multi-timeframe regime classifier whose module body is not
present in the source tree (only its callers and its test are), a model
built from the specification text (`regime_signal_safe`).

Machine floats are modelled as exact rationals plus an explicit NaN
(`Val`); a pandas DataFrame is modelled as a `Frame`: a row count, a list
of column names, and a cell function.  Python exceptions (KeyError /
IndexError) are modelled with `Except String`.
-/

instance {ε α : Type} [DecidableEq ε] [DecidableEq α] : DecidableEq (Except ε α) := fun a b =>
  match a, b with
  | .ok a, .ok b => decidable_of_iff (a = b) (by simp)
  | .error a, .error b => decidable_of_iff (a = b) (by simp)
  | .ok _, .error _ => isFalse (by simp)
  | .error _, .ok _ => isFalse (by simp)

/-- A pandas cell value: a (finite) float, modelled exactly as a rational,
or NaN.  All comparisons against NaN are false, as in IEEE floats. -/
inductive Val where
  | num (q : ℚ)
  | nan
deriving DecidableEq, Repr

namespace Val

/-- Python `a < b` on floats: false whenever either side is NaN. -/
def lt : Val → Val → Bool
  | num a, num b => decide (a < b)
  | _, _ => false

/-- Python `a <= b` on floats: false whenever either side is NaN. -/
def le : Val → Val → Bool
  | num a, num b => decide (a ≤ b)
  | _, _ => false

/-- Float subtraction; NaN-propagating. -/
def sub : Val → Val → Val
  | num a, num b => num (a - b)
  | _, _ => nan

/-- Float addition; NaN-propagating. -/
def add : Val → Val → Val
  | num a, num b => num (a + b)
  | _, _ => nan

/-- Multiplication by a rational constant; NaN-propagating. -/
def mulQ (k : ℚ) : Val → Val
  | num a => num (k * a)
  | nan => nan

/-- Float absolute value; NaN-propagating. -/
def vabs : Val → Val
  | num a => num |a|
  | nan => nan

/-- Is this value a number (not NaN)? -/
def isNum : Val → Bool
  | num _ => true
  | nan => false

end Val

/-- Round-half-to-even of a rational to an integer (Python's `round`). -/
def rndHalfEven (q : ℚ) : ℤ :=
  let f : ℤ := ⌊q⌋
  let r : ℚ := q - f
  if r < 1/2 then f
  else if 1/2 < r then f + 1
  else if f % 2 = 0 then f else f + 1

/-- Python `round(x, 5)`: round to 5 decimal places, half to even. -/
def round5 (q : ℚ) : ℚ := (rndHalfEven (q * 100000) : ℚ) / 100000

/-- `round(x, 5)` lifted to cell values; `round(nan, 5)` is NaN. -/
def Val.round5V : Val → Val
  | num a => num (round5 a)
  | nan => nan

/-- A pandas DataFrame: a row count (the index length), the list of column
names, and the cell contents (meaningful for listed columns and in-range
row indices). -/
structure Frame where
  nrows : ℕ
  cols : List String
  cell : String → ℕ → Val

namespace Frame

/-- `df[c]`: column lookup, raising `KeyError` when the column is absent. -/
def col? (f : Frame) (c : String) : Except String (ℕ → Val) :=
  if c ∈ f.cols then .ok (f.cell c) else .error ("KeyError: " ++ c)

/-- The data of one column as a list (row order). -/
def colData (f : Frame) (c : String) : List Val :=
  (List.range f.nrows).map (f.cell c)

/-- `df.empty` in pandas: the frame has no elements (no rows or no
columns). -/
def isEmpty (f : Frame) : Bool := f.nrows = 0 || f.cols.isEmpty

end Frame

/-- The trade-proposal dictionary produced by `entry_exit_on_m15`. -/
structure Decision where
  action : String
  note : String
  entry : Option Val
  sl : Option Val
  tp : Option Val
deriving DecidableEq, Repr

/-- The `WAIT` default dictionary (`"Kein Setup"`). -/
def waitDefault : Decision := ⟨"WAIT", "Kein Setup", none, none, none⟩

/-- Embedding of `analysis/signals.py`, `entry_exit_on_m15`.  The three
rational parameters are the keyword parameters `pullback_atr_frac`,
`sl_atr_mult`, `tp_atr_mult` (defaults 0.25, 1.5, 2.0).  Column accesses
on a frame with at least 20 rows can raise `KeyError`, modelled by
`Except`. -/
def entry_exit_on_m15 (m15 : Frame) (bias : String)
    (pullback_atr_frac sl_atr_mult tp_atr_mult : ℚ) : Except String Decision :=
  if m15.nrows < 20 then .ok { waitDefault with note := "Zu wenige Bars" }
  else do
    let closeS ← m15.col? "Close"
    let emaS ← m15.col? "EMA50"
    let rsiS ← m15.col? "RSI"
    let atrS ← m15.col? "ATR"
    let psarS ← m15.col? "PSAR"
    let close := closeS (m15.nrows - 1)
    let ema50 := emaS (m15.nrows - 1)
    let rsi := rsiS (m15.nrows - 1)
    let atr := atrS (m15.nrows - 1)
    let psar := psarS (m15.nrows - 1)
    let prev_rsi := rsiS (m15.nrows - 2)
    let pullback_ok := (close.sub ema50).vabs.le (Val.mulQ pullback_atr_frac atr)
    if bias = "UP" then
      let crossed_up := prev_rsi.le (.num 50) && Val.lt (.num 50) rsi
      if Val.lt ema50 close && crossed_up && pullback_ok then
        let entry := close.round5V
        let sl := (entry.sub (Val.mulQ sl_atr_mult atr)).round5V
        let tp := (entry.add (Val.mulQ tp_atr_mult atr)).round5V
        let note := "UP-Bias Entry (RSI>50, Pullback, >EMA50)"
          ++ (if Val.lt close psar then " | Achtung: PSAR über Preis (möglicher Flip)." else "")
        return ⟨"BUY", note, some entry, some sl, some tp⟩
      else pure ()
    if bias = "DOWN" then
      let crossed_dn := Val.le (.num 50) prev_rsi && rsi.lt (.num 50)
      if Val.lt close ema50 && crossed_dn && pullback_ok then
        let entry := close.round5V
        let sl := (entry.add (Val.mulQ sl_atr_mult atr)).round5V
        let tp := (entry.sub (Val.mulQ tp_atr_mult atr)).round5V
        let note := "DOWN-Bias Entry (RSI<50, Pullback, <EMA50)"
          ++ (if Val.lt psar close then " | Achtung: PSAR unter Preis (möglicher Flip)." else "")
        return ⟨"SELL", note, some entry, some sl, some tp⟩
      else pure ()
    return waitDefault

/-! ### Helper lemmas for `entry_exit_on_m15` -/

/-- Shared helper: with fewer than 20 rows the function short-circuits to
the `WAIT` dictionary with the "Zu wenige Bars" note. -/
lemma entry_exit_few_bars_eq (m15 : Frame) (bias : String) (p s t : ℚ)
    (h : m15.nrows < 20) :
    entry_exit_on_m15 m15 bias p s t =
      .ok ⟨"WAIT", "Zu wenige Bars", none, none, none⟩ := by
  unfold entry_exit_on_m15
  rw [if_pos h]
  rfl

/-- The frame used as the concrete deficient input: 20 rows, no columns. -/
def noColsFrame : Frame := ⟨20, [], fun _ _ => .nan⟩

/-- A concrete 20-row frame on which the UP-bias pullback entry fires. -/
def buyFrame : Frame :=
  ⟨20, ["Close", "EMA50", "RSI", "ATR", "PSAR"], fun c i =>
    if c = "Close" then .num 101
    else if c = "EMA50" then .num 100
    else if c = "RSI" then (if i = 19 then .num 60 else .num 40)
    else if c = "ATR" then .num 4
    else .num 90⟩

/-! ### C3: totality of `entry_exit_on_m15` -/

/-- C3 counterexample: on a frame with 20 rows and no columns, the very
first column access raises `KeyError: Close` — the function does *not*
return a decision object for every input frame, contradicting the claim
that it never raises for any set of columns. -/
theorem entry_exit_raises_on_missing_columns :
    entry_exit_on_m15 noColsFrame "UP" (1/4) (3/2) 2 = .error "KeyError: Close" := by
  with_unfolding_all decide

/-- C3 (amended): for every frame that either has fewer than 20 rows or
contains all five required columns (`Close`, `EMA50`, `RSI`, `ATR`,
`PSAR`), and any bias string, `entry_exit_on_m15` returns a decision
object without raising, and the action is one of WAIT/BUY/SELL (WAIT
being the default when no setup fires). -/
theorem entry_exit_total_on_wellformed (f : Frame) (bias : String) (p s t : ℚ)
    (h : f.nrows < 20 ∨ (["Close", "EMA50", "RSI", "ATR", "PSAR"] : List String) ⊆ f.cols) :
    ∃ d : Decision, entry_exit_on_m15 f bias p s t = .ok d ∧
      (d.action = "WAIT" ∨ d.action = "BUY" ∨ d.action = "SELL") := by
  rcases h with h | hsub
  · exact ⟨_, entry_exit_few_bars_eq f bias p s t h, Or.inl rfl⟩
  · by_cases hn : f.nrows < 20
    · exact ⟨_, entry_exit_few_bars_eq f bias p s t hn, Or.inl rfl⟩
    · have h1 : "Close" ∈ f.cols := hsub (by simp)
      have h2 : "EMA50" ∈ f.cols := hsub (by simp)
      have h3 : "RSI" ∈ f.cols := hsub (by simp)
      have h4 : "ATR" ∈ f.cols := hsub (by simp)
      have h5 : "PSAR" ∈ f.cols := hsub (by simp)
      unfold entry_exit_on_m15
      rw [if_neg hn]
      simp only [Frame.col?, if_pos h1, if_pos h2, if_pos h3, if_pos h4, if_pos h5,
                 bind, Except.bind, pure, Except.pure]
      repeat' split
      all_goals first
        | exact ⟨_, rfl, Or.inl rfl⟩
        | exact ⟨_, rfl, Or.inr (Or.inl rfl)⟩
        | exact ⟨_, rfl, Or.inr (Or.inr rfl)⟩

/-- C3 (amended) witness at a concrete input. -/
theorem entry_exit_total_on_wellformed_witness :
    (noColsFrame.nrows < 20 ∨ (["Close", "EMA50", "RSI", "ATR", "PSAR"] : List String) ⊆ buyFrame.cols) ∧
    ∃ d : Decision, entry_exit_on_m15 buyFrame "UP" (1/4) (3/2) 2 = .ok d ∧
      (d.action = "WAIT" ∨ d.action = "BUY" ∨ d.action = "SELL") :=
  ⟨Or.inr (by decide),
   entry_exit_total_on_wellformed buyFrame "UP" (1/4) (3/2) 2 (Or.inr (by decide))⟩

/-! ### C4: fewer than 20 bars gives WAIT with null levels -/

/-- C4: for every frame with fewer than 20 rows and any bias,
`entry_exit_on_m15` returns WAIT with the too-few-bars note
("Zu wenige Bars") and null entry/sl/tp. -/
theorem entry_exit_wait_on_few_bars (m15 : Frame) (bias : String) (p s t : ℚ)
    (h : m15.nrows < 20) :
    entry_exit_on_m15 m15 bias p s t =
      .ok ⟨"WAIT", "Zu wenige Bars", none, none, none⟩ :=
  entry_exit_few_bars_eq m15 bias p s t h

/-- C4 witness: a concrete 5-row frame. -/
theorem entry_exit_wait_on_few_bars_witness :
    (Frame.nrows ⟨5, [], fun _ _ => .nan⟩ < 20) ∧
    entry_exit_on_m15 ⟨5, [], fun _ _ => .nan⟩ "UP" (1/4) (3/2) 2 =
      .ok ⟨"WAIT", "Zu wenige Bars", none, none, none⟩ :=
  ⟨by decide, entry_exit_wait_on_few_bars ⟨5, [], fun _ _ => .nan⟩ "UP" (1/4) (3/2) 2 (by decide)⟩

/-! ### C5: entry/sl/tp are null iff the action is WAIT -/

/-- C5: for every decision returned (without exception) by
`entry_exit_on_m15`, entry, stop-loss and take-profit are all null iff
the action is WAIT; moreover every BUY and every SELL decision carries a
non-null entry, a non-null stop-loss and a non-null take-profit. -/
theorem entry_exit_nulls_iff_wait (m15 : Frame) (bias : String) (p s t : ℚ) (d : Decision)
    (h : entry_exit_on_m15 m15 bias p s t = .ok d) :
    ((d.entry = none ∧ d.sl = none ∧ d.tp = none) ↔ d.action = "WAIT") ∧
    (d.action = "BUY" ∨ d.action = "SELL" →
      d.entry ≠ none ∧ d.sl ≠ none ∧ d.tp ≠ none) := by
  unfold entry_exit_on_m15 at h
  split at h
  · cases h with | refl => simp [waitDefault]
  · simp only [bind, Except.bind, pure, Except.pure, Frame.col?] at h
    repeat' split at h
    all_goals first
      | (cases h with | refl => simp [waitDefault])
      | simp_all

/-- The BUY decision `entry_exit_on_m15` produces on `buyFrame`. -/
def buyDecision : Decision :=
  ⟨"BUY", "UP-Bias Entry (RSI>50, Pullback, >EMA50)",
   some (.num 101), some (.num 95), some (.num 109)⟩

/-- C5 witness at a concrete returned BUY decision. -/
theorem entry_exit_nulls_iff_wait_witness :
    entry_exit_on_m15 buyFrame "UP" (1/4) (3/2) 2 = .ok buyDecision ∧
    (((buyDecision.entry = none ∧ buyDecision.sl = none ∧ buyDecision.tp = none) ↔
        buyDecision.action = "WAIT") ∧
     (buyDecision.action = "BUY" ∨ buyDecision.action = "SELL" →
        buyDecision.entry ≠ none ∧ buyDecision.sl ≠ none ∧ buyDecision.tp ≠ none)) :=
  ⟨by with_unfolding_all decide,
   entry_exit_nulls_iff_wait buyFrame "UP" (1/4) (3/2) 2 buyDecision
     (by with_unfolding_all decide)⟩

/-! ### C6: pullback entry arithmetic -/

/-- C6: with at least 20 bars and all required columns numeric on the last
two bars, (1) bias UP with `prev_rsi ≤ 50 < rsi`, `close > ema_fast` and
`|close − ema_fast| ≤ 0.25·ATR` yields BUY at entry `round5 close`,
`SL = round5 (entry − 1.5·ATR)`, `TP = round5 (entry + 2.0·ATR)`;
(2) the SELL case under bias DOWN is the exact mirror; and (3) on the
boundary `rsi = 50` no BUY fires. -/
theorem entry_exit_pullback_levels (f : Frame) (c e r pr a : ℚ) (ps : Val)
    (hn : 20 ≤ f.nrows)
    (h1 : "Close" ∈ f.cols) (h2 : "EMA50" ∈ f.cols) (h3 : "RSI" ∈ f.cols)
    (h4 : "ATR" ∈ f.cols) (h5 : "PSAR" ∈ f.cols)
    (hc : f.cell "Close" (f.nrows - 1) = .num c)
    (he : f.cell "EMA50" (f.nrows - 1) = .num e)
    (hr : f.cell "RSI" (f.nrows - 1) = .num r)
    (ha : f.cell "ATR" (f.nrows - 1) = .num a)
    (hps : f.cell "PSAR" (f.nrows - 1) = ps)
    (hpr : f.cell "RSI" (f.nrows - 2) = .num pr) :
    (pr ≤ 50 → 50 < r → e < c → |c - e| ≤ 1/4 * a →
      entry_exit_on_m15 f "UP" (1/4) (3/2) 2 =
        .ok ⟨"BUY",
             "UP-Bias Entry (RSI>50, Pullback, >EMA50)"
               ++ (if Val.lt (.num c) ps then " | Achtung: PSAR über Preis (möglicher Flip)." else ""),
             some (.num (round5 c)),
             some (.num (round5 (round5 c - 3/2 * a))),
             some (.num (round5 (round5 c + 2 * a)))⟩)
    ∧ (50 ≤ pr → r < 50 → c < e → |c - e| ≤ 1/4 * a →
      entry_exit_on_m15 f "DOWN" (1/4) (3/2) 2 =
        .ok ⟨"SELL",
             "DOWN-Bias Entry (RSI<50, Pullback, <EMA50)"
               ++ (if Val.lt ps (.num c) then " | Achtung: PSAR unter Preis (möglicher Flip)." else ""),
             some (.num (round5 c)),
             some (.num (round5 (round5 c + 3/2 * a))),
             some (.num (round5 (round5 c - 2 * a)))⟩)
    ∧ (r = 50 → ∀ d : Decision,
        entry_exit_on_m15 f "UP" (1/4) (3/2) 2 = .ok d → d.action ≠ "BUY") := by
  have hn' : ¬ f.nrows < 20 := by omega
  refine ⟨?_, ?_, ?_⟩
  · intro hpr50 hr50 hec hpb
    unfold entry_exit_on_m15
    rw [if_neg hn']
    simp only [Frame.col?, if_pos h1, if_pos h2, if_pos h3, if_pos h4, if_pos h5,
               bind, Except.bind, pure, Except.pure]
    simp only [hc, he, hr, ha, hps, hpr, Val.sub, Val.vabs, Val.mulQ, Val.le, Val.lt,
               Val.add, Val.round5V]
    simp only [decide_eq_true_eq, if_true,
               decide_eq_true hpr50, decide_eq_true hr50, decide_eq_true hec,
               decide_eq_true hpb]
    simp
  · intro hpr50 hr50 hce hpb
    unfold entry_exit_on_m15
    rw [if_neg hn']
    simp only [Frame.col?, if_pos h1, if_pos h2, if_pos h3, if_pos h4, if_pos h5,
               bind, Except.bind, pure, Except.pure]
    simp only [hc, he, hr, ha, hps, hpr, Val.sub, Val.vabs, Val.mulQ, Val.le, Val.lt,
               Val.add, Val.round5V]
    simp only [decide_eq_true_eq, if_true,
               decide_eq_true hpr50, decide_eq_true hr50, decide_eq_true hce,
               decide_eq_true hpb]
    simp
  · intro hr50 d hd
    unfold entry_exit_on_m15 at hd
    rw [if_neg hn'] at hd
    simp only [Frame.col?, if_pos h1, if_pos h2, if_pos h3, if_pos h4, if_pos h5,
               bind, Except.bind, pure, Except.pure] at hd
    simp only [hc, he, hr, ha, hps, hpr, Val.sub, Val.vabs, Val.mulQ, Val.le, Val.lt,
               Val.add, Val.round5V, hr50] at hd
    have : decide ((50:ℚ) < 50) = false := by decide
    simp only [this, Bool.and_false, Bool.false_and] at hd
    repeat' split at hd
    all_goals first
      | (cases hd with | refl => simp [waitDefault])
      | simp_all

/-- C6 witness: a concrete BUY scenario (close 101, EMA50 100, RSI
40 → 60, ATR 4, PSAR 90). -/
theorem entry_exit_pullback_levels_witness :
    ((40:ℚ) ≤ 50 ∧ (50:ℚ) < 60 ∧ (100:ℚ) < 101 ∧ |(101:ℚ) - 100| ≤ 1/4 * 4) ∧
    entry_exit_on_m15 buyFrame "UP" (1/4) (3/2) 2 =
      .ok ⟨"BUY", "UP-Bias Entry (RSI>50, Pullback, >EMA50)",
           some (.num 101), some (.num 95), some (.num 109)⟩ := by
  constructor
  · refine ⟨by norm_num, by norm_num, by norm_num, by norm_num⟩
  · have h := (entry_exit_pullback_levels buyFrame 101 100 60 40 4 (.num 90)
      (by decide) (by decide) (by decide) (by decide) (by decide) (by decide)
      (by decide) (by decide) (by decide) (by decide) (by decide) (by decide)).1
      (by norm_num) (by norm_num) (by norm_num) (by norm_num)
    refine h.trans ?_
    with_unfolding_all decide

/-! ### C7: determinism / statelessness of `entry_exit_on_m15`

To make the hyperproperty meaningful we re-embed the function in an
explicit state-passing style: the frame is a mutable store and every
column access reads the store *at the time of the access*.  We then prove
that the run returns the pure function's answer and leaves the store
untouched, so a second run returns the identical answer. -/

/-- A stateful, failing computation over a frame store. -/
def FrameST (α : Type) := Frame → Except String α × Frame

instance : Monad FrameST where
  pure a := fun f => (.ok a, f)
  bind x g := fun f =>
    match x f with
    | (.error e, f') => (.error e, f')
    | (.ok a, f') => g a f'

/-- Read the current row count from the store. -/
def FrameST.nrows : FrameST ℕ := fun f => (.ok f.nrows, f)

/-- Read a column (`df[c]`) from the store; raises KeyError. -/
def FrameST.col (c : String) : FrameST (ℕ → Val) := fun f => (f.col? c, f)

/-- State-passing embedding of `entry_exit_on_m15`: identical statement
order to the pure embedding, but every access goes through the store. -/
def entry_exit_on_m15_st (bias : String)
    (pullback_atr_frac sl_atr_mult tp_atr_mult : ℚ) : FrameST Decision := do
  let n ← FrameST.nrows
  if n < 20 then return { waitDefault with note := "Zu wenige Bars" }
  else
    let closeS ← FrameST.col "Close"
    let emaS ← FrameST.col "EMA50"
    let rsiS ← FrameST.col "RSI"
    let atrS ← FrameST.col "ATR"
    let psarS ← FrameST.col "PSAR"
    let close := closeS (n - 1)
    let ema50 := emaS (n - 1)
    let rsi := rsiS (n - 1)
    let atr := atrS (n - 1)
    let psar := psarS (n - 1)
    let prev_rsi := rsiS (n - 2)
    let pullback_ok := (close.sub ema50).vabs.le (Val.mulQ pullback_atr_frac atr)
    if bias = "UP" then
      let crossed_up := prev_rsi.le (.num 50) && Val.lt (.num 50) rsi
      if Val.lt ema50 close && crossed_up && pullback_ok then
        let entry := close.round5V
        let sl := (entry.sub (Val.mulQ sl_atr_mult atr)).round5V
        let tp := (entry.add (Val.mulQ tp_atr_mult atr)).round5V
        let note := "UP-Bias Entry (RSI>50, Pullback, >EMA50)"
          ++ (if Val.lt close psar then " | Achtung: PSAR über Preis (möglicher Flip)." else "")
        return ⟨"BUY", note, some entry, some sl, some tp⟩
      else pure ()
    if bias = "DOWN" then
      let crossed_dn := Val.le (.num 50) prev_rsi && rsi.lt (.num 50)
      if Val.lt close ema50 && crossed_dn && pullback_ok then
        let entry := close.round5V
        let sl := (entry.add (Val.mulQ sl_atr_mult atr)).round5V
        let tp := (entry.sub (Val.mulQ tp_atr_mult atr)).round5V
        let note := "DOWN-Bias Entry (RSI<50, Pullback, <EMA50)"
          ++ (if Val.lt psar close then " | Achtung: PSAR unter Preis (möglicher Flip)." else "")
        return ⟨"SELL", note, some entry, some sl, some tp⟩
      else pure ()
    return waitDefault

/-- Two consecutive calls on the same store. -/
def entry_exit_on_m15_twice (bias : String) (p s t : ℚ) : FrameST (Decision × Decision) := do
  let d1 ← entry_exit_on_m15_st bias p s t
  let d2 ← entry_exit_on_m15_st bias p s t
  return (d1, d2)

/-- Helper: one stateful run returns the pure answer and does not change
the store. -/
lemma entry_exit_st_run (f : Frame) (bias : String) (p s t : ℚ) :
    entry_exit_on_m15_st bias p s t f = (entry_exit_on_m15 f bias p s t, f) := by
  show (entry_exit_on_m15_st bias p s t) f = _
  unfold entry_exit_on_m15_st entry_exit_on_m15
  simp only [bind, FrameST.nrows, FrameST.col, pure, Except.pure, Except.bind, Frame.col?,
             Monad.toBind, instMonadFrameST]
  by_cases h : f.nrows < 20
  · simp [h]
  · simp only [h, if_false]
    by_cases h1 : "Close" ∈ f.cols <;>
      by_cases h2 : "EMA50" ∈ f.cols <;>
      by_cases h3 : "RSI" ∈ f.cols <;>
      by_cases h4 : "ATR" ∈ f.cols <;>
      by_cases h5 : "PSAR" ∈ f.cols <;>
      (simp only [h1, h2, h3, h4, h5, if_true, if_false]
       repeat' split
       all_goals rfl)

/-- C7: `entry_exit_on_m15` is deterministic and stateless.  Running the
state-passing embedding on any store returns exactly the pure function of
(frame, bias) and leaves the frame unchanged; hence two consecutive calls
return identical decisions and the input frame is not mutated. -/
theorem entry_exit_deterministic_stateless (f : Frame) (bias : String) (p s t : ℚ) :
    entry_exit_on_m15_st bias p s t f = (entry_exit_on_m15 f bias p s t, f) ∧
    ∀ d1 d2 f', entry_exit_on_m15_twice bias p s t f = (.ok (d1, d2), f') →
      d1 = d2 ∧ f' = f := by
  have hrun := entry_exit_st_run f bias p s t
  refine ⟨hrun, ?_⟩
  intro d1 d2 f' h
  unfold entry_exit_on_m15_twice at h
  simp only [bind, Monad.toBind, instMonadFrameST, pure] at h
  rw [hrun] at h
  cases hp : entry_exit_on_m15 f bias p s t with
  | error e => rw [hp] at h; simp at h
  | ok d =>
    rw [hp] at h
    simp only [] at h
    rw [hrun, hp] at h
    simp only [Prod.mk.injEq, Except.ok.injEq] at h
    obtain ⟨⟨hd1, hd2⟩, hf⟩ := h
    subst hd1; subst hd2; subst hf
    exact ⟨rfl, rfl⟩

/-! ### Embedding of `analysis/indicators.py` -/

/-- ASCII upper-casing of one character (Python `str.upper` restricted to
the ASCII column names that occur here). -/
def upChar (ch : Char) : Char :=
  if 'a' ≤ ch && ch ≤ 'z' then Char.ofNat (ch.toNat - 32) else ch

/-- `s.upper()` on a column name. -/
def upStr (s : String) : String := ⟨s.data.map upChar⟩

/-- `s.replace("+", "P").replace("-", "M")` (single-character substitution). -/
def pmSubst (s : String) : String :=
  ⟨s.data.map (fun ch => if ch = '+' then 'P' else if ch = '-' then 'M' else ch)⟩

/-- Python `w in up`: is `l1` a contiguous substring of `l2`? -/
def isSubList (l1 : List Char) : List Char → Bool
  | [] => l1.isEmpty
  | c :: t => l1.isPrefixOf (c :: t) || isSubList l1 t

/-- Python dict insertion: overwrite the value in place if the key exists,
else append. -/
def dictInsert (d : List (String × String)) (k v : String) : List (String × String) :=
  match d with
  | [] => [(k, v)]
  | (k', v') :: t => if k' = k then (k, v) :: t else (k', v') :: dictInsert t k v

/-- `{c.upper(): c for c in df.columns}` as an insertion-ordered dict. -/
def dictOf (l : List (String × String)) : List (String × String) :=
  l.foldl (fun d p => dictInsert d p.1 p.2) []

/-- Embedding of `_pick_column` from `analysis/indicators.py`: first an
exact column-name hit, then a fuzzy match (uppercased candidate with
`+`/`-` replaced by `P`/`M`, matched as substring or as a prefix of an
uppercased column name), finally the first column as fallback.  The empty
frame yields an all-NaN series (pandas aligns the returned empty series to
NaN on assignment). -/
def _pick_column (df : Frame) (cands : List String) : ℕ → Val :=
  if df.isEmpty then fun _ => .nan
  else
    match cands.find? (fun c => df.cols.contains c) with
    | some c => df.cell c
    | none =>
      let upcols := dictOf (df.cols.map fun c => (upStr c, c))
      match cands.findSome? (fun want =>
        let w := pmSubst (upStr want)
        (upcols.find? fun p => isSubList w.data p.1.data || w.data.isPrefixOf p.1.data).map
          Prod.snd) with
      | some real => df.cell real
      | none =>
        match df.cols with
        | [] => fun _ => .nan
        | c :: _ => df.cell c

/-- Embedding of `_normalize_adx`: a three-column frame ADX/DMP/DMM picked
out of the raw `ta.adx` output. -/
def _normalize_adx (adx_df : Frame) : Frame :=
  ⟨adx_df.nrows, ["ADX", "DMP", "DMM"], fun c =>
    if c = "ADX" then _pick_column adx_df ["ADX_14", "ADX14", "ADX"]
    else if c = "DMP" then _pick_column adx_df ["DMP_14", "DMP14", "DM+_14", "PLUS_DI_14", "PDI_14", "PDI"]
    else if c = "DMM" then _pick_column adx_df ["DMM_14", "DMM14", "DM-_14", "MINUS_DI_14", "MDI_14", "MDI"]
    else fun _ => .nan⟩

/-- `df[c] = v`: replace an existing column in place, else append it. -/
def Frame.setCol (f : Frame) (c : String) (v : ℕ → Val) : Frame :=
  ⟨f.nrows, if c ∈ f.cols then f.cols else f.cols ++ [c],
   fun c' i => if c' = c then v i else f.cell c' i⟩

/-- The third-party indicator library (`pandas_ta`) as an oracle: each
call receives the argument series exactly as the source passes them and
may raise (`.error`), return `None` (`.ok none`) — pandas_ta does this on
too-short input — or return data.  `pd.to_numeric(·, errors="coerce")`
is the identity on our numeric/NaN cells, and coerces a returned `None`
to an all-NaN column. -/
structure TA where
  adx : List Val → List Val → List Val → ℕ → Except Unit (Option Frame)
  rsi : List Val → ℕ → Except Unit (Option (ℕ → Val))
  ema : List Val → ℕ → Except Unit (Option (ℕ → Val))
  psar : List Val → List Val → List Val → Except Unit (Option Frame)

/-- Embedding of `add_indicators` from `analysis/indicators.py`.  An empty
frame (or `None`) is returned unchanged; a frame without High/Low/Close is
copied back unchanged; otherwise ADX/DMP/DMM, RSI, `EMA_{ema_len}` and
optionally PSAR columns are added, each `try`-block falling back to NaN
for exactly its own columns. -/
def add_indicators (ta : TA) (df : Frame) (adx_len rsi_len ema_len : ℕ)
    (psar : Bool) : Frame :=
  if df.isEmpty then df
  else if ¬ ("Close" ∈ df.cols ∧ "High" ∈ df.cols ∧ "Low" ∈ df.cols) then df
  else
    let df1 :=
      match ta.adx (df.colData "High") (df.colData "Low") (df.colData "Close") adx_len with
      | .ok (some adx_raw) =>
        if ¬ adx_raw.isEmpty then
          let nrm := _normalize_adx adx_raw
          ((df.setCol "ADX" (nrm.cell "ADX")).setCol "DMP" (nrm.cell "DMP")).setCol
            "DMM" (nrm.cell "DMM")
        else
          ((df.setCol "ADX" fun _ => .nan).setCol "DMP" fun _ => .nan).setCol
            "DMM" fun _ => .nan
      | _ =>
        ((df.setCol "ADX" fun _ => .nan).setCol "DMP" fun _ => .nan).setCol
          "DMM" fun _ => .nan
    let df2 :=
      match ta.rsi (df.colData "Close") rsi_len with
      | .ok (some s) => df1.setCol "RSI" s
      | _ => df1.setCol "RSI" fun _ => .nan
    let df3 :=
      match ta.ema (df.colData "Close") ema_len with
      | .ok (some s) => df2.setCol ("EMA_" ++ toString ema_len) s
      | _ => df2.setCol ("EMA_" ++ toString ema_len) fun _ => .nan
    if psar then
      match ta.psar (df.colData "High") (df.colData "Low") (df.colData "Close") with
      | .ok (some pdf) =>
        if ¬ pdf.isEmpty then
          let col := (pdf.cols.find? (fun c => isSubList "PSAR".data (upStr c).data)).getD
            (pdf.cols.getLastD "")
          df3.setCol "PSAR" (pdf.cell col)
        else df3.setCol "PSAR" fun _ => .nan
      | _ => df3.setCol "PSAR" fun _ => .nan
    else df3

/-! ### Frame.setCol lemmas -/

lemma Frame.setCol_nrows (f : Frame) (c : String) (v : ℕ → Val) :
    (f.setCol c v).nrows = f.nrows := rfl

lemma Frame.setCol_cell_self (f : Frame) (c : String) (v : ℕ → Val) (i : ℕ) :
    (f.setCol c v).cell c i = v i := by simp [Frame.setCol]

lemma Frame.setCol_cell_of_ne (f : Frame) (c : String) (v : ℕ → Val) (c' : String) (i : ℕ)
    (h : c' ≠ c) : (f.setCol c v).cell c' i = f.cell c' i := by simp [Frame.setCol, h]

lemma Frame.setCol_cols_of_not_mem (f : Frame) (c : String) (v : ℕ → Val)
    (h : c ∉ f.cols) : (f.setCol c v).cols = f.cols ++ [c] := by simp [Frame.setCol, h]

/-- The EMA output column name can never collide with a three-letter
indicator column name. -/
lemma emaCol_ne_of_len3 (t L : String) (hL : L.length = 3) : ("EMA_" ++ t) ≠ L := by
  intro h
  have hlen := congrArg String.length h
  rw [String.length_append] at hlen
  have h4 : ("EMA_" : String).length = 4 := rfl
  omega

/-- The EMA output column name can never collide with the PSAR column
name (their first characters differ). -/
lemma emaCol_ne_psar (t : String) : ("EMA_" ++ t) ≠ "PSAR" := by
  intro h
  have hd := congrArg String.data h
  rw [String.data_append] at hd
  have he : "EMA_".data = ['E', 'M', 'A', '_'] := rfl
  rw [he] at hd
  simp at hd

/-- An indicator oracle whose every call reports "no data" (`None`), as
pandas_ta does on too-short input. -/
def taNone : TA :=
  ⟨fun _ _ _ _ => .ok none, fun _ _ => .ok none, fun _ _ => .ok none, fun _ _ _ => .ok none⟩

/-- A one-bar frame with raw High/Low/Close columns. -/
def oneBarFrame : Frame :=
  ⟨1, ["High", "Low", "Close"], fun c _ =>
    if c = "High" then .num 2 else if c = "Low" then .num 1 else .num (3/2)⟩

/-- An empty (zero-row) frame that still declares raw OHLCV columns. -/
def emptyOHLC : Frame := ⟨0, ["Open", "High", "Low", "Close", "Volume"], fun _ _ => .nan⟩

/-- Shared helper: when every indicator call yields no data (`None`) or
raises, `add_indicators` reduces to appending the five all-NaN derived
columns. -/
lemma add_indicators_all_nan_eq (ta : TA) (df : Frame) (adx_len rsi_len ema_len : ℕ)
    (hne : df.isEmpty = false)
    (hC : "Close" ∈ df.cols) (hH : "High" ∈ df.cols) (hL : "Low" ∈ df.cols)
    (hA : ta.adx (df.colData "High") (df.colData "Low") (df.colData "Close") adx_len = .ok none ∨
          ta.adx (df.colData "High") (df.colData "Low") (df.colData "Close") adx_len = .error ())
    (hR : ta.rsi (df.colData "Close") rsi_len = .ok none ∨
          ta.rsi (df.colData "Close") rsi_len = .error ())
    (hE : ta.ema (df.colData "Close") ema_len = .ok none ∨
          ta.ema (df.colData "Close") ema_len = .error ()) :
    add_indicators ta df adx_len rsi_len ema_len false =
      (((((df.setCol "ADX" fun _ => .nan).setCol "DMP" fun _ => .nan).setCol
        "DMM" fun _ => .nan).setCol "RSI" fun _ => .nan).setCol
        ("EMA_" ++ toString ema_len) fun _ => .nan) := by
  unfold add_indicators
  rw [if_neg (by simp [hne]), if_neg (not_not_intro ⟨hC, hH, hL⟩)]
  rcases hA with hA | hA <;> rcases hR with hR | hR <;> rcases hE with hE | hE <;>
    rw [hA, hR, hE] <;> rfl

/-- Shared helper: a raising ADX call together with succeeding RSI/EMA
calls reduces to NaN ADX/DMP/DMM columns plus the returned RSI/EMA data. -/
lemma add_indicators_adx_fail_eq (ta : TA) (df : Frame) (adx_len rsi_len ema_len : ℕ)
    (sR sE : ℕ → Val)
    (hne : df.isEmpty = false)
    (hC : "Close" ∈ df.cols) (hH : "High" ∈ df.cols) (hL : "Low" ∈ df.cols)
    (hA : ta.adx (df.colData "High") (df.colData "Low") (df.colData "Close") adx_len = .error ())
    (hR : ta.rsi (df.colData "Close") rsi_len = .ok (some sR))
    (hE : ta.ema (df.colData "Close") ema_len = .ok (some sE)) :
    add_indicators ta df adx_len rsi_len ema_len false =
      (((((df.setCol "ADX" fun _ => .nan).setCol "DMP" fun _ => .nan).setCol
        "DMM" fun _ => .nan).setCol "RSI" sR).setCol
        ("EMA_" ++ toString ema_len) sE) := by
  unfold add_indicators
  rw [if_neg (by simp [hne]), if_neg (not_not_intro ⟨hC, hH, hL⟩)]
  rw [hA, hR, hE]
  rfl

/-- Shared helper: a failing RSI call between succeeding ADX and EMA
calls reduces to the normalized ADX columns, a NaN RSI column, and the
returned EMA data. -/
lemma add_indicators_rsi_fail_eq (ta : TA) (df : Frame) (adx_len rsi_len ema_len : ℕ)
    (A : Frame) (sE : ℕ → Val)
    (hne : df.isEmpty = false)
    (hC : "Close" ∈ df.cols) (hH : "High" ∈ df.cols) (hL : "Low" ∈ df.cols)
    (hA : ta.adx (df.colData "High") (df.colData "Low") (df.colData "Close") adx_len
        = .ok (some A))
    (hAne : A.isEmpty = false)
    (hR : ta.rsi (df.colData "Close") rsi_len = .error ())
    (hE : ta.ema (df.colData "Close") ema_len = .ok (some sE)) :
    add_indicators ta df adx_len rsi_len ema_len false =
      ((((df.setCol "ADX" ((_normalize_adx A).cell "ADX")).setCol
          "DMP" ((_normalize_adx A).cell "DMP")).setCol
          "DMM" ((_normalize_adx A).cell "DMM")).setCol "RSI" fun _ => .nan).setCol
        ("EMA_" ++ toString ema_len) sE := by
  unfold add_indicators
  rw [if_neg (by simp [hne]), if_neg (not_not_intro ⟨hC, hH, hL⟩), hA, hR, hE]
  simp only [hAne, Bool.false_eq_true, not_false_eq_true, if_true]
  exact if_neg id

/-- Shared helper: a failing EMA call after succeeding ADX and RSI calls
reduces to the normalized ADX columns, the returned RSI data, and a NaN
EMA column. -/
lemma add_indicators_ema_fail_eq (ta : TA) (df : Frame) (adx_len rsi_len ema_len : ℕ)
    (A : Frame) (sR : ℕ → Val)
    (hne : df.isEmpty = false)
    (hC : "Close" ∈ df.cols) (hH : "High" ∈ df.cols) (hL : "Low" ∈ df.cols)
    (hA : ta.adx (df.colData "High") (df.colData "Low") (df.colData "Close") adx_len
        = .ok (some A))
    (hAne : A.isEmpty = false)
    (hR : ta.rsi (df.colData "Close") rsi_len = .ok (some sR))
    (hE : ta.ema (df.colData "Close") ema_len = .error ()) :
    add_indicators ta df adx_len rsi_len ema_len false =
      ((((df.setCol "ADX" ((_normalize_adx A).cell "ADX")).setCol
          "DMP" ((_normalize_adx A).cell "DMP")).setCol
          "DMM" ((_normalize_adx A).cell "DMM")).setCol "RSI" sR).setCol
        ("EMA_" ++ toString ema_len) (fun _ => .nan) := by
  unfold add_indicators
  rw [if_neg (by simp [hne]), if_neg (not_not_intro ⟨hC, hH, hL⟩), hA, hR, hE]
  simp only [hAne, Bool.false_eq_true, not_false_eq_true, if_true]
  exact if_neg id

/-- Shared helper: with the PSAR flag on, a failing PSAR call after
succeeding ADX/RSI/EMA calls reduces to the full success chain plus a
NaN PSAR column. -/
lemma add_indicators_psar_fail_eq (ta : TA) (df : Frame) (adx_len rsi_len ema_len : ℕ)
    (A : Frame) (sR sE : ℕ → Val)
    (hne : df.isEmpty = false)
    (hC : "Close" ∈ df.cols) (hH : "High" ∈ df.cols) (hL : "Low" ∈ df.cols)
    (hA : ta.adx (df.colData "High") (df.colData "Low") (df.colData "Close") adx_len
        = .ok (some A))
    (hAne : A.isEmpty = false)
    (hR : ta.rsi (df.colData "Close") rsi_len = .ok (some sR))
    (hE : ta.ema (df.colData "Close") ema_len = .ok (some sE))
    (hP : ta.psar (df.colData "High") (df.colData "Low") (df.colData "Close") = .error ()) :
    add_indicators ta df adx_len rsi_len ema_len true =
      (((((df.setCol "ADX" ((_normalize_adx A).cell "ADX")).setCol
          "DMP" ((_normalize_adx A).cell "DMP")).setCol
          "DMM" ((_normalize_adx A).cell "DMM")).setCol "RSI" sR).setCol
        ("EMA_" ++ toString ema_len) sE).setCol "PSAR" (fun _ => .nan) := by
  unfold add_indicators
  rw [if_neg (by simp [hne]), if_neg (not_not_intro ⟨hC, hH, hL⟩), hA, hR, hE, hP]
  simp only [hAne, Bool.false_eq_true, not_false_eq_true, if_true]

/-! ### C8: robustness of the indicator pipeline -/

/-- C7 witness: the stateful run on a concrete frame returns the pure
answer and the unchanged frame. -/
theorem entry_exit_deterministic_stateless_witness :
    entry_exit_on_m15_st "UP" (1/4) (3/2) 2 buyFrame =
      (entry_exit_on_m15 buyFrame "UP" (1/4) (3/2) 2, buyFrame) :=
  (entry_exit_deterministic_stateless buyFrame "UP" (1/4) (3/2) 2).1

/-- C8 counterexample: on an *empty* bar series that declares the raw
OHLCV columns, `add_indicators` returns the input frame unchanged — it
does **not** return a frame containing all-NaN derived indicator columns
(no `ADX` column is present), contradicting the claim's empty-series
clause. -/
theorem add_indicators_empty_unchanged :
    add_indicators taNone emptyOHLC 14 14 50 false = emptyOHLC ∧
    "ADX" ∉ (add_indicators taNone emptyOHLC 14 14 50 false).cols :=
  ⟨rfl, by decide⟩

/-- C8 (amended): `add_indicators` never raises.  (1) An empty frame is
returned unchanged (no derived columns are added).  (2) On a non-empty
frame with High/Low/Close present, whenever each indicator call reports
no data or raises — as pandas_ta does on fewer than 2 bars — the output
is the input plus all-NaN ADX/DMP/DMM/RSI/EMA columns, the raw columns
untouched.  (3)–(6) Every per-indicator computation error is caught
locally: a raising ADX leaves only ADX/DMP/DMM NaN while the returned
RSI/EMA data still land; a raising RSI leaves only RSI NaN while the
normalized ADX/DMP/DMM and the EMA data land; a raising EMA leaves only
the EMA column NaN; and, with the PSAR flag on, a raising PSAR leaves
only PSAR NaN while ADX/DMP/DMM, RSI and EMA all land. -/
theorem add_indicators_robust (ta : TA) (df : Frame) (adx_len rsi_len ema_len : ℕ) :
    (df.isEmpty = true → add_indicators ta df adx_len rsi_len ema_len false = df)
    ∧ (df.isEmpty = false → "Close" ∈ df.cols → "High" ∈ df.cols → "Low" ∈ df.cols →
       "ADX" ∉ df.cols → "DMP" ∉ df.cols → "DMM" ∉ df.cols → "RSI" ∉ df.cols →
       ("EMA_" ++ toString ema_len) ∉ df.cols →
       (ta.adx (df.colData "High") (df.colData "Low") (df.colData "Close") adx_len = .ok none ∨
        ta.adx (df.colData "High") (df.colData "Low") (df.colData "Close") adx_len = .error ()) →
       (ta.rsi (df.colData "Close") rsi_len = .ok none ∨
        ta.rsi (df.colData "Close") rsi_len = .error ()) →
       (ta.ema (df.colData "Close") ema_len = .ok none ∨
        ta.ema (df.colData "Close") ema_len = .error ()) →
       (add_indicators ta df adx_len rsi_len ema_len false).cols
          = df.cols ++ ["ADX", "DMP", "DMM", "RSI", "EMA_" ++ toString ema_len]
       ∧ (∀ i, (add_indicators ta df adx_len rsi_len ema_len false).cell "ADX" i = .nan)
       ∧ (∀ i, (add_indicators ta df adx_len rsi_len ema_len false).cell "DMP" i = .nan)
       ∧ (∀ i, (add_indicators ta df adx_len rsi_len ema_len false).cell "DMM" i = .nan)
       ∧ (∀ i, (add_indicators ta df adx_len rsi_len ema_len false).cell "RSI" i = .nan)
       ∧ (∀ i, (add_indicators ta df adx_len rsi_len ema_len false).cell
            ("EMA_" ++ toString ema_len) i = .nan)
       ∧ (∀ c ∈ df.cols, ∀ i,
            (add_indicators ta df adx_len rsi_len ema_len false).cell c i = df.cell c i))
    ∧ (∀ sR sE : ℕ → Val, df.isEmpty = false →
       "Close" ∈ df.cols → "High" ∈ df.cols → "Low" ∈ df.cols →
       ta.adx (df.colData "High") (df.colData "Low") (df.colData "Close") adx_len = .error () →
       ta.rsi (df.colData "Close") rsi_len = .ok (some sR) →
       ta.ema (df.colData "Close") ema_len = .ok (some sE) →
       (∀ i, (add_indicators ta df adx_len rsi_len ema_len false).cell "ADX" i = .nan)
       ∧ (∀ i, (add_indicators ta df adx_len rsi_len ema_len false).cell "DMP" i = .nan)
       ∧ (∀ i, (add_indicators ta df adx_len rsi_len ema_len false).cell "DMM" i = .nan)
       ∧ (∀ i, (add_indicators ta df adx_len rsi_len ema_len false).cell "RSI" i = sR i)
       ∧ (∀ i, (add_indicators ta df adx_len rsi_len ema_len false).cell
            ("EMA_" ++ toString ema_len) i = sE i))
    ∧ (∀ A : Frame, ∀ sE : ℕ → Val, df.isEmpty = false →
       "Close" ∈ df.cols → "High" ∈ df.cols → "Low" ∈ df.cols →
       ta.adx (df.colData "High") (df.colData "Low") (df.colData "Close") adx_len
         = .ok (some A) →
       A.isEmpty = false →
       ta.rsi (df.colData "Close") rsi_len = .error () →
       ta.ema (df.colData "Close") ema_len = .ok (some sE) →
       (∀ i, (add_indicators ta df adx_len rsi_len ema_len false).cell "RSI" i = .nan)
       ∧ (∀ i, (add_indicators ta df adx_len rsi_len ema_len false).cell "ADX" i
            = (_normalize_adx A).cell "ADX" i)
       ∧ (∀ i, (add_indicators ta df adx_len rsi_len ema_len false).cell "DMP" i
            = (_normalize_adx A).cell "DMP" i)
       ∧ (∀ i, (add_indicators ta df adx_len rsi_len ema_len false).cell "DMM" i
            = (_normalize_adx A).cell "DMM" i)
       ∧ (∀ i, (add_indicators ta df adx_len rsi_len ema_len false).cell
            ("EMA_" ++ toString ema_len) i = sE i))
    ∧ (∀ A : Frame, ∀ sR : ℕ → Val, df.isEmpty = false →
       "Close" ∈ df.cols → "High" ∈ df.cols → "Low" ∈ df.cols →
       ta.adx (df.colData "High") (df.colData "Low") (df.colData "Close") adx_len
         = .ok (some A) →
       A.isEmpty = false →
       ta.rsi (df.colData "Close") rsi_len = .ok (some sR) →
       ta.ema (df.colData "Close") ema_len = .error () →
       (∀ i, (add_indicators ta df adx_len rsi_len ema_len false).cell
            ("EMA_" ++ toString ema_len) i = .nan)
       ∧ (∀ i, (add_indicators ta df adx_len rsi_len ema_len false).cell "ADX" i
            = (_normalize_adx A).cell "ADX" i)
       ∧ (∀ i, (add_indicators ta df adx_len rsi_len ema_len false).cell "DMP" i
            = (_normalize_adx A).cell "DMP" i)
       ∧ (∀ i, (add_indicators ta df adx_len rsi_len ema_len false).cell "DMM" i
            = (_normalize_adx A).cell "DMM" i)
       ∧ (∀ i, (add_indicators ta df adx_len rsi_len ema_len false).cell "RSI" i = sR i))
    ∧ (∀ A : Frame, ∀ sR sE : ℕ → Val, df.isEmpty = false →
       "Close" ∈ df.cols → "High" ∈ df.cols → "Low" ∈ df.cols →
       ta.adx (df.colData "High") (df.colData "Low") (df.colData "Close") adx_len
         = .ok (some A) →
       A.isEmpty = false →
       ta.rsi (df.colData "Close") rsi_len = .ok (some sR) →
       ta.ema (df.colData "Close") ema_len = .ok (some sE) →
       ta.psar (df.colData "High") (df.colData "Low") (df.colData "Close") = .error () →
       (∀ i, (add_indicators ta df adx_len rsi_len ema_len true).cell "PSAR" i = .nan)
       ∧ (∀ i, (add_indicators ta df adx_len rsi_len ema_len true).cell "ADX" i
            = (_normalize_adx A).cell "ADX" i)
       ∧ (∀ i, (add_indicators ta df adx_len rsi_len ema_len true).cell "DMP" i
            = (_normalize_adx A).cell "DMP" i)
       ∧ (∀ i, (add_indicators ta df adx_len rsi_len ema_len true).cell "DMM" i
            = (_normalize_adx A).cell "DMM" i)
       ∧ (∀ i, (add_indicators ta df adx_len rsi_len ema_len true).cell "RSI" i = sR i)
       ∧ (∀ i, (add_indicators ta df adx_len rsi_len ema_len true).cell
            ("EMA_" ++ toString ema_len) i = sE i)) := by
  refine ⟨?_, ?_, ?_, ?_, ?_, ?_⟩
  · intro h
    unfold add_indicators
    rw [if_pos h]
  · intro hne hC hH hL hADX hDMP hDMM hRSI hEMA hA hR hE
    have hres := add_indicators_all_nan_eq ta df adx_len rsi_len ema_len hne hC hH hL hA hR hE
    have nA : ("ADX" : String) ≠ "EMA_" ++ toString ema_len :=
      (emaCol_ne_of_len3 (toString ema_len) "ADX" rfl).symm
    have nP : ("DMP" : String) ≠ "EMA_" ++ toString ema_len :=
      (emaCol_ne_of_len3 (toString ema_len) "DMP" rfl).symm
    have nM : ("DMM" : String) ≠ "EMA_" ++ toString ema_len :=
      (emaCol_ne_of_len3 (toString ema_len) "DMM" rfl).symm
    have nR : ("RSI" : String) ≠ "EMA_" ++ toString ema_len :=
      (emaCol_ne_of_len3 (toString ema_len) "RSI" rfl).symm
    rw [hres]
    have e1 : (df.setCol "ADX" fun _ => Val.nan).cols = df.cols ++ ["ADX"] :=
      Frame.setCol_cols_of_not_mem _ _ _ hADX
    have m2 : "DMP" ∉ (df.setCol "ADX" fun _ => Val.nan).cols := by
      rw [e1]; simp [hDMP]
    have e2 : ((df.setCol "ADX" fun _ => Val.nan).setCol "DMP" fun _ => Val.nan).cols
        = df.cols ++ ["ADX"] ++ ["DMP"] := by
      rw [Frame.setCol_cols_of_not_mem _ _ _ m2, e1]
    have m3 : "DMM" ∉ ((df.setCol "ADX" fun _ => Val.nan).setCol "DMP" fun _ => Val.nan).cols := by
      rw [e2]; simp [hDMM]
    have e3 : (((df.setCol "ADX" fun _ => Val.nan).setCol "DMP" fun _ => Val.nan).setCol
        "DMM" fun _ => Val.nan).cols = df.cols ++ ["ADX"] ++ ["DMP"] ++ ["DMM"] := by
      rw [Frame.setCol_cols_of_not_mem _ _ _ m3, e2]
    have m4 : "RSI" ∉ (((df.setCol "ADX" fun _ => Val.nan).setCol "DMP" fun _ => Val.nan).setCol
        "DMM" fun _ => Val.nan).cols := by
      rw [e3]; simp [hRSI]
    have e4 : ((((df.setCol "ADX" fun _ => Val.nan).setCol "DMP" fun _ => Val.nan).setCol
        "DMM" fun _ => Val.nan).setCol "RSI" fun _ => Val.nan).cols
        = df.cols ++ ["ADX"] ++ ["DMP"] ++ ["DMM"] ++ ["RSI"] := by
      rw [Frame.setCol_cols_of_not_mem _ _ _ m4, e3]
    have m5 : ("EMA_" ++ toString ema_len) ∉
        ((((df.setCol "ADX" fun _ => Val.nan).setCol "DMP" fun _ => Val.nan).setCol
        "DMM" fun _ => Val.nan).setCol "RSI" fun _ => Val.nan).cols := by
      rw [e4]
      simp [hEMA, emaCol_ne_of_len3 (toString ema_len) "ADX" rfl,
            emaCol_ne_of_len3 (toString ema_len) "DMP" rfl,
            emaCol_ne_of_len3 (toString ema_len) "DMM" rfl,
            emaCol_ne_of_len3 (toString ema_len) "RSI" rfl]
    refine ⟨?_, ?_, ?_, ?_, ?_, ?_, ?_⟩
    · rw [Frame.setCol_cols_of_not_mem _ _ _ m5, e4]
      simp
    · intro i; simp [Frame.setCol, nA]
    · intro i; simp [Frame.setCol, nP]
    · intro i; simp [Frame.setCol, nM]
    · intro i; simp [Frame.setCol, nR]
    · intro i; simp [Frame.setCol]
    · intro c hc i
      have c1 : c ≠ "ADX" := fun e => hADX (e ▸ hc)
      have c2 : c ≠ "DMP" := fun e => hDMP (e ▸ hc)
      have c3 : c ≠ "DMM" := fun e => hDMM (e ▸ hc)
      have c4 : c ≠ "RSI" := fun e => hRSI (e ▸ hc)
      have c5 : c ≠ "EMA_" ++ toString ema_len := fun e => hEMA (e ▸ hc)
      simp [Frame.setCol, c1, c2, c3, c4, c5]
  · intro sR sE hne hC hH hL hA hR hE
    have hres := add_indicators_adx_fail_eq ta df adx_len rsi_len ema_len sR sE hne hC hH hL hA hR hE
    have nA : ("ADX" : String) ≠ "EMA_" ++ toString ema_len :=
      (emaCol_ne_of_len3 (toString ema_len) "ADX" rfl).symm
    have nP : ("DMP" : String) ≠ "EMA_" ++ toString ema_len :=
      (emaCol_ne_of_len3 (toString ema_len) "DMP" rfl).symm
    have nM : ("DMM" : String) ≠ "EMA_" ++ toString ema_len :=
      (emaCol_ne_of_len3 (toString ema_len) "DMM" rfl).symm
    have nR : ("RSI" : String) ≠ "EMA_" ++ toString ema_len :=
      (emaCol_ne_of_len3 (toString ema_len) "RSI" rfl).symm
    rw [hres]
    exact ⟨fun i => by simp [Frame.setCol, nA],
           fun i => by simp [Frame.setCol, nP],
           fun i => by simp [Frame.setCol, nM],
           fun i => by simp [Frame.setCol, nR],
           fun i => by simp [Frame.setCol]⟩
  · intro A sE hne hC hH hL hA hAne hR hE
    have hres := add_indicators_rsi_fail_eq ta df adx_len rsi_len ema_len A sE
      hne hC hH hL hA hAne hR hE
    have nA : ("ADX" : String) ≠ "EMA_" ++ toString ema_len :=
      (emaCol_ne_of_len3 (toString ema_len) "ADX" rfl).symm
    have nP : ("DMP" : String) ≠ "EMA_" ++ toString ema_len :=
      (emaCol_ne_of_len3 (toString ema_len) "DMP" rfl).symm
    have nM : ("DMM" : String) ≠ "EMA_" ++ toString ema_len :=
      (emaCol_ne_of_len3 (toString ema_len) "DMM" rfl).symm
    have nR : ("RSI" : String) ≠ "EMA_" ++ toString ema_len :=
      (emaCol_ne_of_len3 (toString ema_len) "RSI" rfl).symm
    rw [hres]
    exact ⟨fun i => by simp [Frame.setCol, nR],
           fun i => by simp [Frame.setCol, nA],
           fun i => by simp [Frame.setCol, nP],
           fun i => by simp [Frame.setCol, nM],
           fun i => by simp [Frame.setCol]⟩
  · intro A sR hne hC hH hL hA hAne hR hE
    have hres := add_indicators_ema_fail_eq ta df adx_len rsi_len ema_len A sR
      hne hC hH hL hA hAne hR hE
    have nA : ("ADX" : String) ≠ "EMA_" ++ toString ema_len :=
      (emaCol_ne_of_len3 (toString ema_len) "ADX" rfl).symm
    have nP : ("DMP" : String) ≠ "EMA_" ++ toString ema_len :=
      (emaCol_ne_of_len3 (toString ema_len) "DMP" rfl).symm
    have nM : ("DMM" : String) ≠ "EMA_" ++ toString ema_len :=
      (emaCol_ne_of_len3 (toString ema_len) "DMM" rfl).symm
    have nR : ("RSI" : String) ≠ "EMA_" ++ toString ema_len :=
      (emaCol_ne_of_len3 (toString ema_len) "RSI" rfl).symm
    rw [hres]
    exact ⟨fun i => by simp [Frame.setCol],
           fun i => by simp [Frame.setCol, nA],
           fun i => by simp [Frame.setCol, nP],
           fun i => by simp [Frame.setCol, nM],
           fun i => by simp [Frame.setCol, nR]⟩
  · intro A sR sE hne hC hH hL hA hAne hR hE hP
    have hres := add_indicators_psar_fail_eq ta df adx_len rsi_len ema_len A sR sE
      hne hC hH hL hA hAne hR hE hP
    have nA : ("ADX" : String) ≠ "EMA_" ++ toString ema_len :=
      (emaCol_ne_of_len3 (toString ema_len) "ADX" rfl).symm
    have nP : ("DMP" : String) ≠ "EMA_" ++ toString ema_len :=
      (emaCol_ne_of_len3 (toString ema_len) "DMP" rfl).symm
    have nM : ("DMM" : String) ≠ "EMA_" ++ toString ema_len :=
      (emaCol_ne_of_len3 (toString ema_len) "DMM" rfl).symm
    have nR : ("RSI" : String) ≠ "EMA_" ++ toString ema_len :=
      (emaCol_ne_of_len3 (toString ema_len) "RSI" rfl).symm
    have nPS : ("EMA_" ++ toString ema_len : String) ≠ "PSAR" :=
      emaCol_ne_psar (toString ema_len)
    rw [hres]
    exact ⟨fun i => by simp [Frame.setCol],
           fun i => by simp [Frame.setCol, nA],
           fun i => by simp [Frame.setCol, nP],
           fun i => by simp [Frame.setCol, nM],
           fun i => by simp [Frame.setCol, nR],
           fun i => by simp [Frame.setCol, nPS]⟩

/-- C8 witness: a one-bar frame with the no-data oracle. -/
theorem add_indicators_robust_witness :
    (oneBarFrame.isEmpty = false ∧ "Close" ∈ oneBarFrame.cols ∧
      ("EMA_" ++ toString 50) ∉ oneBarFrame.cols) ∧
    (add_indicators taNone oneBarFrame 14 14 50 false).cols
      = oneBarFrame.cols ++ ["ADX", "DMP", "DMM", "RSI", "EMA_" ++ toString 50] ∧
    (add_indicators taNone oneBarFrame 14 14 50 false).cell "ADX" 0 = .nan ∧
    (add_indicators taNone oneBarFrame 14 14 50 false).cell "Close" 0
      = oneBarFrame.cell "Close" 0 := by
  have h := (add_indicators_robust taNone oneBarFrame 14 14 50).2.1 rfl
    (by decide) (by decide) (by decide) (by decide) (by decide) (by decide) (by decide)
    (by decide) (Or.inl rfl) (Or.inl rfl) (Or.inl rfl)
  exact ⟨⟨rfl, by decide, by decide⟩, h.1, h.2.1 0, h.2.2.2.2.2.2 "Close" (by decide) 0⟩

/-! ### Embedding of `analysis/data_loader.py`, `resample_ohlc` -/

/-- One OHLCV bar (the loader drops NaN rows, so plain rationals). -/
structure Bar where
  o : ℚ
  h : ℚ
  l : ℚ
  c : ℚ
  v : ℚ
deriving DecidableEq, Repr

/-- The right-closed, right-labelled bucket label of timestamp `t` on a
grid of width `Δ`: the smallest multiple of `Δ` that is `≥ t`
(`resample(rule, label="right", closed="right")`).  Timestamps are
integers (e.g. minutes since the epoch). -/
def bucketLabel (Δ : ℕ) (t : ℤ) : ℤ := ((t + Δ - 1).ediv Δ) * Δ

/-- Aggregation of one bucket: `open=first, high=max, low=min,
close=last, volume=sum` over the constituent bars in order. -/
def aggBucket (b : Bar) (bs : List Bar) : Bar :=
  { o := b.o
    h := (bs.map Bar.h).foldl max b.h
    l := (bs.map Bar.l).foldl min b.l
    c := (bs.getLastD b).c
    v := b.v + (bs.map Bar.v).sum }

/-- Embedding of `resample_ohlc`: group the bars by right-closed,
right-labelled buckets of width `Δ` and aggregate each non-empty bucket
(`.dropna()` discards the empty buckets of the regular grid). -/
def resample_ohlc (Δ : ℕ) (bars : List (ℤ × Bar)) : List (ℤ × Bar) :=
  ((bars.map (fun tb => bucketLabel Δ tb.1)).dedup).filterMap (fun L =>
    match bars.filter (fun tb => bucketLabel Δ tb.1 == L) with
    | [] => none
    | b :: bs => some (L, aggBucket b.2 (bs.map Prod.snd)))

/-- The label grid: `t` always lands at or below its bucket label, within
one bucket width. -/
lemma bucketLabel_bounds (Δ : ℕ) (hΔ : 0 < Δ) (t : ℤ) :
    t ≤ bucketLabel Δ t ∧ bucketLabel Δ t - Δ < t := by
  have hΔ' : (0:ℤ) < Δ := by exact_mod_cast hΔ
  have h1 : (Δ:ℤ) * ((t + Δ - 1).ediv Δ) + (t + Δ - 1).emod Δ = t + Δ - 1 :=
    Int.ediv_add_emod _ _
  have h2 : 0 ≤ (t + Δ - 1).emod Δ := Int.emod_nonneg _ (by omega)
  have h3 : (t + Δ - 1).emod Δ < Δ := Int.emod_lt_of_pos _ hΔ'
  have hmc : ((t + Δ - 1).ediv Δ) * Δ = (Δ:ℤ) * ((t + Δ - 1).ediv Δ) := mul_comm _ _
  unfold bucketLabel
  constructor <;> linarith

/-- Bucket labels are multiples of the bucket width. -/
lemma bucketLabel_dvd (Δ : ℕ) (t : ℤ) : (Δ:ℤ) ∣ bucketLabel Δ t :=
  ⟨(t + Δ - 1).ediv Δ, mul_comm _ _⟩

/-- Characterization of the right-closed bucket: a timestamp has label
`L` (a grid point) exactly when it lies in the half-open window
`(L − Δ, L]`. -/
lemma bucketLabel_eq_iff (Δ : ℕ) (hΔ : 0 < Δ) (t L : ℤ) (hdvd : (Δ:ℤ) ∣ L) :
    bucketLabel Δ t = L ↔ (L - Δ < t ∧ t ≤ L) := by
  have hΔ' : (0:ℤ) < Δ := by exact_mod_cast hΔ
  obtain ⟨hle, hlt⟩ := bucketLabel_bounds Δ hΔ t
  constructor
  · intro h
    constructor <;> omega
  · rintro ⟨hl, hr⟩
    have hd : (Δ:ℤ) ∣ bucketLabel Δ t - L := (bucketLabel_dvd Δ t).sub hdvd
    have habs : |bucketLabel Δ t - L| < (Δ:ℤ) := by
      rw [abs_lt]; omega
    have := Int.eq_zero_of_abs_lt_dvd hd habs
    omega

/-- `a` and the elements of `l` all bound `foldl max` from below. -/
lemma foldl_max_ge (l : List ℚ) (a : ℚ) :
    a ≤ l.foldl max a ∧ ∀ x ∈ l, x ≤ l.foldl max a := by
  induction l generalizing a with
  | nil => simp
  | cons y t ih =>
    have h1 := (ih (max a y)).1
    refine ⟨le_trans (le_max_left a y) h1, ?_⟩
    intro x hx
    rw [List.foldl_cons]
    rcases List.mem_cons.1 hx with h | h
    · rw [h]; exact le_trans (le_max_right a y) h1
    · exact (ih (max a y)).2 x h
/-- `foldl max` is attained by `a` or by an element of `l`. -/
lemma foldl_max_mem (l : List ℚ) (a : ℚ) :
    l.foldl max a = a ∨ l.foldl max a ∈ l := by
  induction l generalizing a with
  | nil => exact Or.inl rfl
  | cons y t ih =>
    rw [List.foldl_cons]
    rcases ih (max a y) with h | h
    · rcases max_cases a y with ⟨he, _⟩ | ⟨he, _⟩
      · exact Or.inl (by rw [h, he])
      · exact Or.inr (by rw [h, he]; exact List.mem_cons_self y t)
    · exact Or.inr (List.mem_cons_of_mem y h)

/-- `a` and the elements of `l` all bound `foldl min` from above. -/
lemma foldl_min_le (l : List ℚ) (a : ℚ) :
    l.foldl min a ≤ a ∧ ∀ x ∈ l, l.foldl min a ≤ x := by
  induction l generalizing a with
  | nil => simp
  | cons y t ih =>
    have h1 := (ih (min a y)).1
    refine ⟨le_trans h1 (min_le_left a y), ?_⟩
    intro x hx
    rw [List.foldl_cons]
    rcases List.mem_cons.1 hx with h | h
    · rw [h]; exact le_trans h1 (min_le_right a y)
    · exact (ih (min a y)).2 x h

/-- `foldl min` is attained by `a` or by an element of `l`. -/
lemma foldl_min_mem (l : List ℚ) (a : ℚ) :
    l.foldl min a = a ∨ l.foldl min a ∈ l := by
  induction l generalizing a with
  | nil => exact Or.inl rfl
  | cons y t ih =>
    rw [List.foldl_cons]
    rcases ih (min a y) with h | h
    · rcases min_cases a y with ⟨he, _⟩ | ⟨he, _⟩
      · exact Or.inl (by rw [h, he])
      · exact Or.inr (by rw [h, he]; exact List.mem_cons_self y t)
    · exact Or.inr (List.mem_cons_of_mem y h)

/-! ### C9: resampling aggregates right-closed, right-labelled buckets -/

/-- C9: every row `(L, B)` of `resample_ohlc` aggregates exactly the fine
bars of the right-closed window `(L − Δ, L]` labelled by its right edge:
`open` is the first constituent's open, `close` the last constituent's
close, `high`/`low` the maximum/minimum over the constituents (attained),
and `volume` their sum. -/
theorem resample_ohlc_bucket_agg (Δ : ℕ) (bars : List (ℤ × Bar)) (L : ℤ) (B : Bar)
    (hΔ : 0 < Δ)
    (_hsorted : List.Chain' (fun a b : ℤ × Bar => a.1 < b.1) bars)
    (hmem : (L, B) ∈ resample_ohlc Δ bars) :
    (∀ t : ℤ, bucketLabel Δ t = L ↔ (L - Δ < t ∧ t ≤ L)) ∧
    ∃ b bs, bars.filter (fun tb => bucketLabel Δ tb.1 == L) = b :: bs ∧
      B.o = b.2.o ∧
      B.c = ((bs.map Prod.snd).getLastD b.2).c ∧
      B.v = b.2.v + ((bs.map Prod.snd).map Bar.v).sum ∧
      (∀ tb ∈ b :: bs, tb.2.h ≤ B.h) ∧ (∃ tb ∈ b :: bs, B.h = tb.2.h) ∧
      (∀ tb ∈ b :: bs, B.l ≤ tb.2.l) ∧ (∃ tb ∈ b :: bs, B.l = tb.2.l) := by
  unfold resample_ohlc at hmem
  rw [List.mem_filterMap] at hmem
  obtain ⟨L', hL', hf⟩ := hmem
  cases hfil : bars.filter (fun tb => bucketLabel Δ tb.1 == L') with
  | nil => rw [hfil] at hf; exact absurd hf (by simp)
  | cons b bs =>
    rw [hfil] at hf
    simp only [Option.some.injEq, Prod.mk.injEq] at hf
    obtain ⟨hLL, hB⟩ := hf
    rw [hLL] at hfil
    have hbmem : b ∈ bars.filter (fun tb => bucketLabel Δ tb.1 == L) := by
      rw [hfil]; exact List.mem_cons_self _ _
    have hbl : bucketLabel Δ b.1 = L := by
      have h2 := (List.mem_filter.1 hbmem).2
      simpa using h2
    have hdvd : (Δ:ℤ) ∣ L := hbl ▸ bucketLabel_dvd Δ b.1
    refine ⟨fun t => bucketLabel_eq_iff Δ hΔ t L hdvd, b, bs, hfil, ?_, ?_, ?_, ?_, ?_, ?_, ?_⟩
    · rw [← hB]; rfl
    · rw [← hB]; rfl
    · rw [← hB]; rfl
    · intro tb htb
      rw [← hB]
      have hmax := foldl_max_ge ((bs.map Prod.snd).map Bar.h) b.2.h
      rcases List.mem_cons.1 htb with h | h
      · rw [h]; exact hmax.1
      · exact hmax.2 tb.2.h (List.mem_map_of_mem Bar.h (List.mem_map_of_mem Prod.snd h))
    · rw [← hB]
      rcases foldl_max_mem ((bs.map Prod.snd).map Bar.h) b.2.h with h | h
      · exact ⟨b, List.mem_cons_self _ _, h⟩
      · obtain ⟨bar, hbar, hv⟩ := List.mem_map.1 h
        obtain ⟨tb, htb, htb2⟩ := List.mem_map.1 hbar
        rw [← htb2] at hv
        exact ⟨tb, List.mem_cons_of_mem b htb, hv.symm⟩
    · intro tb htb
      rw [← hB]
      have hmin := foldl_min_le ((bs.map Prod.snd).map Bar.l) b.2.l
      rcases List.mem_cons.1 htb with h | h
      · rw [h]; exact hmin.1
      · exact hmin.2 tb.2.l (List.mem_map_of_mem Bar.l (List.mem_map_of_mem Prod.snd h))
    · rw [← hB]
      rcases foldl_min_mem ((bs.map Prod.snd).map Bar.l) b.2.l with h | h
      · exact ⟨b, List.mem_cons_self _ _, h⟩
      · obtain ⟨bar, hbar, hv⟩ := List.mem_map.1 h
        obtain ⟨tb, htb, htb2⟩ := List.mem_map.1 hbar
        rw [← htb2] at hv
        exact ⟨tb, List.mem_cons_of_mem b htb, hv.symm⟩

/-- A concrete sorted 15-minute-style series for the resampler witness. -/
def wBars : List (ℤ × Bar) :=
  [(30, ⟨1, 5, 0, 2, 10⟩), (60, ⟨2, 7, 1, 3, 20⟩), (90, ⟨3, 4, 2, 4, 30⟩)]

/-- C9 witness: hourly buckets (`Δ = 60`) over three fine bars; the first
two bars land in the bucket labelled 60 = right edge of `(0, 60]`. -/
theorem resample_ohlc_bucket_agg_witness :
    (0 < 60 ∧ List.Chain' (fun a b : ℤ × Bar => a.1 < b.1) wBars ∧
      ((60 : ℤ), (⟨1, 7, 0, 3, 30⟩ : Bar)) ∈ resample_ohlc 60 wBars) ∧
    (bucketLabel 60 30 = 60 ↔ ((60 : ℤ) - 60 < 30 ∧ (30 : ℤ) ≤ 60)) := by
  have h := resample_ohlc_bucket_agg 60 wBars 60 ⟨1, 7, 0, 3, 30⟩
    (by decide) (by norm_num [wBars, List.chain'_cons]) (by with_unfolding_all decide)
  exact ⟨⟨by decide, by norm_num [wBars, List.chain'_cons], by with_unfolding_all decide⟩,
    h.1 30⟩

/-! ### Embedding of `agent.py`, `regime_signal` -/

/-- A cell as an optional rational (`dropna` keeps the numeric cells). -/
def Val.toQ? : Val → Option ℚ
  | num q => some q
  | nan => none

/-- Embedding of the inner `slope_last(series, n=5)` of `agent.py`:
drop NaNs, return `0.0` when fewer than `n+1` values remain, else the
difference between the last value and the value `n` positions before. -/
def slope_last (series : List Val) (n : ℕ) : ℚ :=
  let s := series.filterMap Val.toQ?
  if s.length < n + 1 then 0
  else s.getD (s.length - 1) 0 - s.getD (s.length - 1 - n) 0

/-- Embedding of the inner `last_adx(df, col_prefix)` of `agent.py`:
`0.0` when no `ADX_14_<tf>` column exists, else the last non-NaN value of
the first matching column — an `IndexError` when that column holds no
non-NaN value (`.dropna().iloc[-1]` on an empty series). -/
def last_adx (df : Frame) (col_pre : String) : Except String ℚ :=
  match df.cols.filter (fun c => ("ADX_14_" ++ col_pre).data.isPrefixOf c.data) with
  | [] => .ok 0
  | c :: _ =>
    if ¬ df.isEmpty then
      let l := (df.colData c).filterMap Val.toQ?
      if l.isEmpty then .error "IndexError: single positional indexer is out-of-bounds"
      else .ok (l.getLastD 0)
    else .ok 0

/-- Embedding of `regime_signal` from `agent.py`.  It receives the Daily,
4-hour and 1-hour indicator frames but reads only the first two: UP when
the `EMA_50` slopes of D1 and H4 are positive and both ADX values exceed
18, DOWN in the mirrored case, NEUTRAL otherwise.  The positional
selection `[c for c in cols if c.startswith(...)][0]` raises `IndexError`
when no `EMA_50_<tf>` column exists, and `last_adx` can raise on an
all-NaN ADX column; both are modelled with `Except`. -/
def regime_signal (d1 h4 _h1 : Option Frame) : Except String (String × String) :=
  match d1, h4 with
  | some d1f, some h4f =>
    if d1f.isEmpty || h4f.isEmpty then
      .ok ("NEUTRAL", "Unvollständige Daten (D1/H4) – neutralisiert")
    else do
      let emaD1 ← match d1f.cols.filter (fun c => "EMA_50_D1".data.isPrefixOf c.data) with
        | [] => Except.error "IndexError: list index out of range"
        | c :: _ => Except.ok c
      let s_d1 := slope_last (d1f.colData emaD1) 5
      let emaH4 ← match h4f.cols.filter (fun c => "EMA_50_H4".data.isPrefixOf c.data) with
        | [] => Except.error "IndexError: list index out of range"
        | c :: _ => Except.ok c
      let s_h4 := slope_last (h4f.colData emaH4) 5
      let adx_d1 ← last_adx d1f "D1"
      let adx_h4 ← last_adx h4f "H4"
      let strong := decide (18 < adx_d1) && decide (18 < adx_h4)
      if decide (0 < s_d1) && decide (0 < s_h4) && strong then
        return ("UP", "EMA50 steigend (D1/H4) & ADX>18")
      else if decide (s_d1 < 0) && decide (s_h4 < 0) && strong then
        return ("DOWN", "EMA50 fallend (D1/H4) & ADX>18")
      else return ("NEUTRAL", "Kein klarer Trend (EMA/ADX)")
  | _, _ => .ok ("NEUTRAL", "Unvollständige Daten (D1/H4) – neutralisiert")

/-! ### C10: the 1-hour frame has no influence on `regime_signal` -/

/-- C10: any two calls of `agent.py`'s `regime_signal` that agree on the
Daily and 4H frames return the identical (bias, reason) outcome whatever
the 1H argument is — the function never reads its third parameter. -/
theorem regime_signal_ignores_h1 (d1 h4 h1 h1' : Option Frame) :
    regime_signal d1 h4 h1 = regime_signal d1 h4 h1' := rfl

/-! ### The multi-timeframe regime classifier (spec-modelled)

`analysis/regime.py` in the source tree holds the orchestrator `main`
module (it even imports `regime_signal` *from* `analysis.regime` under
the alias `regime_signal_safe`): the module body that defines the safe
classifier is missing from the tree, while its callers
(`strategies/wilder.py`) and its test (`test_regime.py`) remain.  The
definitions below are therefore modelled from the specification text. -/

/-- The regime decision dictionary `{bias, reasons}`. -/
structure RegimeDecision where
  bias : String
  reasons : List String
deriving DecidableEq, Repr

/-- Modelled from the spec: least-squares (linear-regression) slope of
the points `(i, ys i)`; degenerate denominators give 0 (fewer than two
distinct abscissae cannot occur for the ≥5-point series it is used on). -/
def linregSlope (ys : List ℚ) : ℚ :=
  let n : ℚ := ys.length
  let xs := (List.range ys.length).map (fun i => (i : ℚ))
  let sx := xs.sum
  let sy := ys.sum
  let sxy := ((xs.zip ys).map (fun p => p.1 * p.2)).sum
  let sxx := (xs.map (fun x => x * x)).sum
  let den := n * sxx - sx * sx
  if den = 0 then 0 else (n * sxy - sx * sy) / den

/-- Modelled from the spec: the required-fields check of the safe regime
classifier — any empty timeframe frame or missing required column
(`close`/`ema_slow` on Daily, `adx`/`plus_di`/`minus_di` on 4H,
`close`/`ema_fast` on 1H) short-circuits with a reason naming the
deficient timeframe and field. -/
def requiredCheck (d1 h4 h1 : Frame) : Option String :=
  if d1.nrows = 0 then some "D1: empty frame"
  else if "close" ∉ d1.cols then some "D1: missing column close"
  else if "ema_slow" ∉ d1.cols then some "D1: missing column ema_slow"
  else if h4.nrows = 0 then some "H4: empty frame"
  else if "adx" ∉ h4.cols then some "H4: missing column adx"
  else if "plus_di" ∉ h4.cols then some "H4: missing column plus_di"
  else if "minus_di" ∉ h4.cols then some "H4: missing column minus_di"
  else if h1.nrows = 0 then some "H1: empty frame"
  else if "close" ∉ h1.cols then some "H1: missing column close"
  else if "ema_fast" ∉ h1.cols then some "H1: missing column ema_fast"
  else none

/-- Modelled from the spec: Daily bullish — `close > ema_slow` on the
last bar (false on NaN). -/
def dailyBull (d1 : Frame) : Bool :=
  Val.lt (d1.cell "ema_slow" (d1.nrows - 1)) (d1.cell "close" (d1.nrows - 1))

/-- Modelled from the spec: Daily bearish — `close < ema_slow`. -/
def dailyBear (d1 : Frame) : Bool :=
  Val.lt (d1.cell "close" (d1.nrows - 1)) (d1.cell "ema_slow" (d1.nrows - 1))

/-- Modelled from the spec: 4H bullish — `ADX > adx_min` and `+DI > -DI`. -/
def h4Bull (h4 : Frame) (adx_min : ℚ) : Bool :=
  Val.lt (.num adx_min) (h4.cell "adx" (h4.nrows - 1)) &&
  Val.lt (h4.cell "minus_di" (h4.nrows - 1)) (h4.cell "plus_di" (h4.nrows - 1))

/-- Modelled from the spec: 4H bearish — `ADX > adx_min` and `-DI > +DI`. -/
def h4Bear (h4 : Frame) (adx_min : ℚ) : Bool :=
  Val.lt (.num adx_min) (h4.cell "adx" (h4.nrows - 1)) &&
  Val.lt (h4.cell "plus_di" (h4.nrows - 1)) (h4.cell "minus_di" (h4.nrows - 1))

/-- Modelled from the spec: the valid (non-NaN) `ema_fast` points of the
last `min(50, len)` 1H bars, the sample for the slope regression. -/
def h1Valid (h1 : Frame) : List ℚ :=
  ((h1.colData "ema_fast").drop (h1.nrows - min 50 h1.nrows)).filterMap Val.toQ?

/-- Modelled from the spec: 1H bullish — positive regression slope of
`ema_fast` and `close > ema_fast` on the last bar. -/
def h1Bull (h1 : Frame) : Bool :=
  decide (0 < linregSlope (h1Valid h1)) &&
  Val.lt (h1.cell "ema_fast" (h1.nrows - 1)) (h1.cell "close" (h1.nrows - 1))

/-- Modelled from the spec: 1H bearish — negative slope and
`close < ema_fast`. -/
def h1Bear (h1 : Frame) : Bool :=
  decide (linregSlope (h1Valid h1) < 0) &&
  Val.lt (h1.cell "close" (h1.nrows - 1)) (h1.cell "ema_fast" (h1.nrows - 1))

/-- Modelled from the spec: the safe multi-timeframe regime classifier
(`regime_signal` of the missing `analysis/regime.py`, imported elsewhere
as `regime_signal_safe`): required-fields check first, then the Daily /
4H / 1H classifications, requiring at least 5 valid slope points, and the
conjunctive combine — UP iff all three bullish, DOWN iff all three
bearish, NEUTRAL otherwise, with a reason recorded for every check. -/
def regime_signal_safe (d1 h4 h1 : Frame) (adx_min : ℚ) : RegimeDecision :=
  match requiredCheck d1 h4 h1 with
  | some r => ⟨"NEUTRAL", [r]⟩
  | none =>
    let r1 := if dailyBull d1 then "D1: bullish (close > ema_slow)"
      else if dailyBear d1 then "D1: bearish (close < ema_slow)"
      else "D1: inconclusive (close vs ema_slow)"
    let r2 := if h4Bull h4 adx_min then "H4: bullish (adx > min, plus_di > minus_di)"
      else if h4Bear h4 adx_min then "H4: bearish (adx > min, minus_di > plus_di)"
      else "H4: inconclusive (adx/plus_di/minus_di)"
    if (h1Valid h1).length < 5 then
      ⟨"NEUTRAL", [r1, r2, "H1: fewer than 5 valid ema_fast points for slope"]⟩
    else
      let r3 := if h1Bull h1 then "H1: bullish (ema_fast slope > 0, close > ema_fast)"
        else if h1Bear h1 then "H1: bearish (ema_fast slope < 0, close < ema_fast)"
        else "H1: inconclusive (ema_fast slope/close)"
      if dailyBull d1 && h4Bull h4 adx_min && h1Bull h1 then
        ⟨"UP", [r1, r2, r3, "UP: all three timeframes bullish"]⟩
      else if dailyBear d1 && h4Bear h4 adx_min && h1Bear h1 then
        ⟨"DOWN", [r1, r2, r3, "DOWN: all three timeframes bearish"]⟩
      else
        ⟨"NEUTRAL", [r1, r2, r3, "NEUTRAL: timeframes disagree"]⟩

/-- Strict float comparison is asymmetric, NaN included. -/
lemma Val.lt_asymm_false {a b : Val} (h : Val.lt a b = true) : Val.lt b a = false := by
  cases a with
  | nan => simp [Val.lt] at h
  | num x =>
    cases b with
    | nan => simp [Val.lt] at h
    | num y =>
      simp only [Val.lt, decide_eq_true_eq] at h
      simp only [Val.lt, decide_eq_false_iff_not]
      exact not_lt.2 h.le

/-- Comparing against a NaN right operand is false. -/
lemma Val.lt_nan_right (a : Val) : Val.lt a .nan = false := by cases a <;> rfl

/-- Comparing against a NaN left operand is false. -/
lemma Val.lt_nan_left (a : Val) : Val.lt .nan a = false := rfl

lemma dailyBull_not_bear {d1 : Frame} (h : dailyBull d1 = true) : dailyBear d1 = false :=
  Val.lt_asymm_false h

lemma dailyBear_not_bull {d1 : Frame} (h : dailyBear d1 = true) : dailyBull d1 = false :=
  Val.lt_asymm_false h

lemma h4Bull_not_bear {h4 : Frame} {m : ℚ} (h : h4Bull h4 m = true) : h4Bear h4 m = false := by
  unfold h4Bull at h
  rw [Bool.and_eq_true] at h
  obtain ⟨h1, h2⟩ := h
  unfold h4Bear
  rw [Val.lt_asymm_false h2, Bool.and_false]

lemma h4Bear_not_bull {h4 : Frame} {m : ℚ} (h : h4Bear h4 m = true) : h4Bull h4 m = false := by
  unfold h4Bear at h
  rw [Bool.and_eq_true] at h
  obtain ⟨h1, h2⟩ := h
  unfold h4Bull
  rw [Val.lt_asymm_false h2, Bool.and_false]

lemma h1Bull_not_bear {h1 : Frame} (h : h1Bull h1 = true) : h1Bear h1 = false := by
  unfold h1Bull at h
  rw [Bool.and_eq_true] at h
  obtain ⟨h1s, h2⟩ := h
  unfold h1Bear
  rw [Val.lt_asymm_false h2, Bool.and_false]

lemma h1Bear_not_bull {h1 : Frame} (h : h1Bear h1 = true) : h1Bull h1 = false := by
  unfold h1Bear at h
  rw [Bool.and_eq_true] at h
  obtain ⟨h1s, h2⟩ := h
  unfold h1Bull
  rw [Val.lt_asymm_false h2, Bool.and_false]

/-- Shared helper: the safe classifier short-circuits on a failed
required-fields check. -/
lemma regime_safe_req_eq (d1 h4 h1 : Frame) (m : ℚ) (r : String)
    (h : requiredCheck d1 h4 h1 = some r) :
    regime_signal_safe d1 h4 h1 m = ⟨"NEUTRAL", [r]⟩ := by
  unfold regime_signal_safe
  rw [h]

/-- Shared helper: with preconditions satisfied and enough slope points,
the bias is exactly the conjunctive combine of the three timeframes. -/
lemma regime_safe_bias_main (d1 h4 h1 : Frame) (m : ℚ)
    (hreq : requiredCheck d1 h4 h1 = none) (hn : ¬ (h1Valid h1).length < 5) :
    (regime_signal_safe d1 h4 h1 m).bias =
      (if dailyBull d1 && h4Bull h4 m && h1Bull h1 then "UP"
       else if dailyBear d1 && h4Bear h4 m && h1Bear h1 then "DOWN"
       else "NEUTRAL") := by
  simp only [regime_signal_safe, hreq]
  rw [if_neg hn]
  split <;> split <;> rfl

/-- Shared helper: with preconditions satisfied and enough slope points,
the reasons list holds the three per-timeframe verdicts plus the combine
verdict. -/
lemma regime_safe_reasons_main (d1 h4 h1 : Frame) (m : ℚ)
    (hreq : requiredCheck d1 h4 h1 = none) (hn : ¬ (h1Valid h1).length < 5) :
    (regime_signal_safe d1 h4 h1 m).reasons =
      [if dailyBull d1 then "D1: bullish (close > ema_slow)"
         else if dailyBear d1 then "D1: bearish (close < ema_slow)"
         else "D1: inconclusive (close vs ema_slow)",
       if h4Bull h4 m then "H4: bullish (adx > min, plus_di > minus_di)"
         else if h4Bear h4 m then "H4: bearish (adx > min, minus_di > plus_di)"
         else "H4: inconclusive (adx/plus_di/minus_di)",
       if h1Bull h1 then "H1: bullish (ema_fast slope > 0, close > ema_fast)"
         else if h1Bear h1 then "H1: bearish (ema_fast slope < 0, close < ema_fast)"
         else "H1: inconclusive (ema_fast slope/close)",
       if dailyBull d1 && h4Bull h4 m && h1Bull h1 then "UP: all three timeframes bullish"
         else if dailyBear d1 && h4Bear h4 m && h1Bear h1 then "DOWN: all three timeframes bearish"
         else "NEUTRAL: timeframes disagree"] := by
  simp only [regime_signal_safe, hreq]
  rw [if_neg hn]
  split <;> split <;> rfl

/-- Shared helper: too few valid slope points give the NEUTRAL decision
with the H1 reason. -/
lemma regime_safe_short_h1 (d1 h4 h1 : Frame) (m : ℚ)
    (hreq : requiredCheck d1 h4 h1 = none) (hn : (h1Valid h1).length < 5) :
    (regime_signal_safe d1 h4 h1 m).bias = "NEUTRAL" ∧
    "H1: fewer than 5 valid ema_fast points for slope" ∈
      (regime_signal_safe d1 h4 h1 m).reasons := by
  simp only [regime_signal_safe, hreq]
  rw [if_pos hn]
  exact ⟨rfl, by simp⟩

/-! ### C1: the conjunctive combine of the regime classifier -/

/-- C1 (spec-modelled): under the required-fields preconditions and with
at least 5 valid slope points, the bias is UP iff Daily, 4H (ADX above the
minimum with +DI dominant) and 1H (positive EMA-fast slope, close above
EMA-fast) are all bullish, DOWN iff all three are bearish, and flipping
any single one of the three conditions away from bullish (resp. bearish)
while the other two stay bullish (resp. bearish) yields NEUTRAL. -/
theorem regime_safe_conjunction (d1 h4 h1 : Frame) (m : ℚ)
    (hreq : requiredCheck d1 h4 h1 = none)
    (hn : 5 ≤ (h1Valid h1).length) :
    ((regime_signal_safe d1 h4 h1 m).bias = "UP" ↔
      (dailyBull d1 = true ∧ h4Bull h4 m = true ∧ h1Bull h1 = true)) ∧
    ((regime_signal_safe d1 h4 h1 m).bias = "DOWN" ↔
      (dailyBear d1 = true ∧ h4Bear h4 m = true ∧ h1Bear h1 = true)) ∧
    (dailyBull d1 = true → h4Bull h4 m = true → h1Bull h1 = false →
      (regime_signal_safe d1 h4 h1 m).bias = "NEUTRAL") ∧
    (dailyBull d1 = true → h4Bull h4 m = false → h1Bull h1 = true →
      (regime_signal_safe d1 h4 h1 m).bias = "NEUTRAL") ∧
    (dailyBull d1 = false → h4Bull h4 m = true → h1Bull h1 = true →
      (regime_signal_safe d1 h4 h1 m).bias = "NEUTRAL") ∧
    (dailyBear d1 = true → h4Bear h4 m = true → h1Bear h1 = false →
      (regime_signal_safe d1 h4 h1 m).bias = "NEUTRAL") ∧
    (dailyBear d1 = true → h4Bear h4 m = false → h1Bear h1 = true →
      (regime_signal_safe d1 h4 h1 m).bias = "NEUTRAL") ∧
    (dailyBear d1 = false → h4Bear h4 m = true → h1Bear h1 = true →
      (regime_signal_safe d1 h4 h1 m).bias = "NEUTRAL") := by
  have hb := regime_safe_bias_main d1 h4 h1 m hreq (not_lt.2 hn)
  rw [hb]
  refine ⟨?_, ?_, ?_, ?_, ?_, ?_, ?_, ?_⟩
  · constructor
    · intro h
      cases hc1 : (dailyBull d1 && h4Bull h4 m && h1Bull h1) with
      | true =>
        rw [Bool.and_eq_true, Bool.and_eq_true] at hc1
        exact ⟨hc1.1.1, hc1.1.2, hc1.2⟩
      | false =>
        rw [hc1] at h
        simp only [Bool.false_eq_true, if_false] at h
        split at h <;> simp_all
    · rintro ⟨a, b, c⟩
      simp [a, b, c]
  · constructor
    · intro h
      cases hc1 : (dailyBull d1 && h4Bull h4 m && h1Bull h1) with
      | true => rw [hc1] at h; simp at h
      | false =>
        rw [hc1] at h
        simp only [Bool.false_eq_true, if_false] at h
        cases hc2 : (dailyBear d1 && h4Bear h4 m && h1Bear h1) with
        | true =>
          rw [Bool.and_eq_true, Bool.and_eq_true] at hc2
          exact ⟨hc2.1.1, hc2.1.2, hc2.2⟩
        | false => rw [hc2] at h; simp at h
    · rintro ⟨a, b, c⟩
      have e1 : dailyBull d1 = false := dailyBear_not_bull a
      simp [a, b, c, e1]
  · intro a b c
    have e1 : dailyBear d1 = false := dailyBull_not_bear a
    simp [a, b, c, e1]
  · intro a b c
    have e1 : dailyBear d1 = false := dailyBull_not_bear a
    simp [a, b, c, e1]
  · intro a b c
    have e1 : h4Bear h4 m = false := h4Bull_not_bear b
    simp [a, b, c, e1]
  · intro a b c
    have e1 : dailyBull d1 = false := dailyBear_not_bull a
    simp [a, b, c, e1]
  · intro a b c
    have e1 : dailyBull d1 = false := dailyBear_not_bull a
    simp [a, b, c, e1]
  · intro a b c
    have e1 : h4Bull h4 m = false := h4Bear_not_bull b
    simp [a, b, c, e1]

/-- A concrete bullish Daily frame (`close 2 > ema_slow 1`). -/
def d1Bull : Frame := ⟨1, ["close", "ema_slow"], fun c _ =>
  if c = "close" then .num 2 else .num 1⟩

/-- A concrete bullish 4H frame (`adx 25 > 18`, `+DI 30 > -DI 10`). -/
def h4BullF : Frame := ⟨1, ["adx", "plus_di", "minus_di"], fun c _ =>
  if c = "adx" then .num 25 else if c = "plus_di" then .num 30 else .num 10⟩

/-- A concrete bullish 1H frame: `ema_fast` rises 0,1,2,3,4 and
`close 10 > ema_fast 4`. -/
def h1BullF : Frame := ⟨5, ["close", "ema_fast"], fun c i =>
  if c = "ema_fast" then .num i else .num 10⟩

/-- C1 witness: the all-bullish concrete triple classifies as UP. -/
theorem regime_safe_conjunction_witness :
    (requiredCheck d1Bull h4BullF h1BullF = none ∧ 5 ≤ (h1Valid h1BullF).length) ∧
    (regime_signal_safe d1Bull h4BullF h1BullF 18).bias = "UP" := by
  have h := (regime_safe_conjunction d1Bull h4BullF h1BullF 18 (by decide) (by decide)).1
  exact ⟨⟨by decide, by decide⟩,
    h.mpr ⟨by with_unfolding_all decide, by with_unfolding_all decide,
           by with_unfolding_all decide⟩⟩

/-! ### C2: fail-safe NEUTRAL on deficient inputs -/

/-- C2 (spec-modelled): the safe regime classifier is a total function
(it cannot raise) and degrades to NEUTRAL on every deficient input:
(1) an empty frame or a missing required column short-circuits to NEUTRAL
with the reason naming the deficient timeframe and field; with the
structural check passed, a NaN in (2) the Daily close/ema_slow, (3) the
4H adx/plus_di/minus_di, or (4) the 1H close/ema_fast on the last bar
still yields NEUTRAL with a reason naming the timeframe, as does (5) an
all-NaN 1H ema_fast column (no valid slope points). -/
theorem regime_safe_neutral_on_deficiency (d1 h4 h1 : Frame) (m : ℚ) :
    (∀ r, requiredCheck d1 h4 h1 = some r →
        regime_signal_safe d1 h4 h1 m = ⟨"NEUTRAL", [r]⟩) ∧
    (requiredCheck d1 h4 h1 = none →
      (d1.cell "close" (d1.nrows - 1) = .nan ∨ d1.cell "ema_slow" (d1.nrows - 1) = .nan) →
      (regime_signal_safe d1 h4 h1 m).bias = "NEUTRAL" ∧
      ("D1: inconclusive (close vs ema_slow)" ∈ (regime_signal_safe d1 h4 h1 m).reasons ∨
       "H1: fewer than 5 valid ema_fast points for slope" ∈ (regime_signal_safe d1 h4 h1 m).reasons)) ∧
    (requiredCheck d1 h4 h1 = none →
      (h4.cell "adx" (h4.nrows - 1) = .nan ∨ h4.cell "plus_di" (h4.nrows - 1) = .nan ∨
       h4.cell "minus_di" (h4.nrows - 1) = .nan) →
      (regime_signal_safe d1 h4 h1 m).bias = "NEUTRAL" ∧
      ("H4: inconclusive (adx/plus_di/minus_di)" ∈ (regime_signal_safe d1 h4 h1 m).reasons ∨
       "H1: fewer than 5 valid ema_fast points for slope" ∈ (regime_signal_safe d1 h4 h1 m).reasons)) ∧
    (requiredCheck d1 h4 h1 = none →
      (h1.cell "close" (h1.nrows - 1) = .nan ∨ h1.cell "ema_fast" (h1.nrows - 1) = .nan) →
      (regime_signal_safe d1 h4 h1 m).bias = "NEUTRAL" ∧
      ("H1: inconclusive (ema_fast slope/close)" ∈ (regime_signal_safe d1 h4 h1 m).reasons ∨
       "H1: fewer than 5 valid ema_fast points for slope" ∈ (regime_signal_safe d1 h4 h1 m).reasons)) ∧
    (requiredCheck d1 h4 h1 = none →
      (∀ i < h1.nrows, h1.cell "ema_fast" i = .nan) →
      (regime_signal_safe d1 h4 h1 m).bias = "NEUTRAL" ∧
      "H1: fewer than 5 valid ema_fast points for slope" ∈
        (regime_signal_safe d1 h4 h1 m).reasons) := by
  refine ⟨fun r h => regime_safe_req_eq d1 h4 h1 m r h, ?_, ?_, ?_, ?_⟩
  · intro hreq hnan
    have e1 : dailyBull d1 = false := by
      unfold dailyBull
      rcases hnan with h | h <;> rw [h]
      · exact Val.lt_nan_right _
      · exact Val.lt_nan_left _
    have e2 : dailyBear d1 = false := by
      unfold dailyBear
      rcases hnan with h | h <;> rw [h]
      · exact Val.lt_nan_left _
      · exact Val.lt_nan_right _
    by_cases hlen : (h1Valid h1).length < 5
    · obtain ⟨hb, hm⟩ := regime_safe_short_h1 d1 h4 h1 m hreq hlen
      exact ⟨hb, Or.inr hm⟩
    · rw [regime_safe_bias_main d1 h4 h1 m hreq hlen,
          regime_safe_reasons_main d1 h4 h1 m hreq hlen]
      refine ⟨by simp [e1, e2], Or.inl ?_⟩
      simp [e1, e2]
  · intro hreq hnan
    have e1 : h4Bull h4 m = false := by
      unfold h4Bull
      rcases hnan with h | h | h <;> rw [h]
      · rw [Val.lt_nan_right]; rfl
      · rw [Val.lt_nan_right, Bool.and_false]
      · rw [Val.lt_nan_left, Bool.and_false]
    have e2 : h4Bear h4 m = false := by
      unfold h4Bear
      rcases hnan with h | h | h <;> rw [h]
      · rw [Val.lt_nan_right]; rfl
      · rw [Val.lt_nan_left, Bool.and_false]
      · rw [Val.lt_nan_right, Bool.and_false]
    by_cases hlen : (h1Valid h1).length < 5
    · obtain ⟨hb, hm⟩ := regime_safe_short_h1 d1 h4 h1 m hreq hlen
      exact ⟨hb, Or.inr hm⟩
    · rw [regime_safe_bias_main d1 h4 h1 m hreq hlen,
          regime_safe_reasons_main d1 h4 h1 m hreq hlen]
      refine ⟨by simp [e1, e2], Or.inl ?_⟩
      simp [e1, e2]
  · intro hreq hnan
    have e1 : h1Bull h1 = false := by
      unfold h1Bull
      rcases hnan with h | h <;> rw [h]
      · rw [Val.lt_nan_right, Bool.and_false]
      · rw [Val.lt_nan_left, Bool.and_false]
    have e2 : h1Bear h1 = false := by
      unfold h1Bear
      rcases hnan with h | h <;> rw [h]
      · rw [Val.lt_nan_left, Bool.and_false]
      · rw [Val.lt_nan_right, Bool.and_false]
    by_cases hlen : (h1Valid h1).length < 5
    · obtain ⟨hb, hm⟩ := regime_safe_short_h1 d1 h4 h1 m hreq hlen
      exact ⟨hb, Or.inr hm⟩
    · rw [regime_safe_bias_main d1 h4 h1 m hreq hlen,
          regime_safe_reasons_main d1 h4 h1 m hreq hlen]
      refine ⟨by simp [e1, e2], Or.inl ?_⟩
      simp [e1, e2]
  · intro hreq hall
    have hempty : h1Valid h1 = [] := by
      unfold h1Valid
      rw [List.filterMap_eq_nil_iff]
      intro a ha
      have ha' : a ∈ h1.colData "ema_fast" := List.mem_of_mem_drop ha
      unfold Frame.colData at ha'
      obtain ⟨i, hi, hia⟩ := List.mem_map.1 ha'
      rw [← hia, hall i (List.mem_range.1 hi)]
      rfl
    have hlen : (h1Valid h1).length < 5 := by rw [hempty]; decide
    exact regime_safe_short_h1 d1 h4 h1 m hreq hlen

/-- C2 witness: an empty Daily frame short-circuits with the naming
reason. -/
theorem regime_safe_neutral_on_deficiency_witness :
    requiredCheck ⟨0, [], fun _ _ => .nan⟩ h4BullF h1BullF = some "D1: empty frame" ∧
    regime_signal_safe ⟨0, [], fun _ _ => .nan⟩ h4BullF h1BullF 18 =
      ⟨"NEUTRAL", ["D1: empty frame"]⟩ :=
  ⟨by decide,
   (regime_safe_neutral_on_deficiency ⟨0, [], fun _ _ => .nan⟩ h4BullF h1BullF 18).1
     "D1: empty frame" (by decide)⟩
